import Mathlib

/-!
# jlcxx type mapping: a shallow embedding of `type_conversion.hpp`

The header classifies every C++ type into a marshaling strategy
(`MappingTrait`), maps it to a wire type (`static_type_mapping`) and keeps a
run-time registry from C++ types to Julia datatypes
(`dynamic_type_mapping`, `CachedTypeMapping`).

Templates are compile-time functions of a type, so they are embedded as Lean
functions on a syntax of C++ types; the registry is embedded with explicit
state passing, an exception being an `Except.error` returned together with the
state reached when it was thrown.

The conversion layer (`ConvertToJulia`, `ConvertToCpp`, `box`, `unbox`,
`boxed_cpp_pointer`, `julia_owned`, `detail::finalizer`, `detail::DoUnpack`)
works on a `Memory` holding the host objects, the registered finalizers, the GC
frames and the C++ objects; machine integers are `Int` with explicit reduction
modulo `2 ^ w`. The `append` method that `stl.hpp` wraps for `std::vector` is
embedded over lists.
-/

namespace jlcxx

/-! ## C++ types -/

/-- Arithmetic fundamental types named by the header. -/
inductive Arithmetic where
  | bool
  | char
  | int32_t
  | int64_t
  | uint32_t
  | uint64_t
  | float
  | double
  deriving DecidableEq, Repr

/-- Properties of a user-declared class that the header queries through
`<type_traits>`. -/
structure ClassTraits where
  is_standard_layout : Bool
  is_trivially_copyable : Bool
  has_trivial_default_constructor : Bool
  deriving DecidableEq, Repr

/-- Syntax of the C++ types a template of the header can be instantiated with.
`const_ T` is `const T`, `ptr T` is `T*`, `lref T` is `T&`, `rref T` is `T&&`;
so `ptr (const_ T)` is `const T*` and `const_ (ptr T)` is `T* const`. -/
inductive CppType where
  | void
  | arith (a : Arithmetic)
  | enumeration (name : String)
  | jl_value_t
  | jl_datatype_t
  | WrappedCppPtr
  | ObjectIdDict
  | SingletonType (T : CppType)
  | StrictlyTypedNumber (NumberT : CppType)
  | record (name : String) (traits : ClassTraits)
  | const_ (T : CppType)
  | ptr (T : CppType)
  | lref (T : CppType)
  | rref (T : CppType)
  deriving DecidableEq, Repr

namespace CppType

/-- Value of `std::is_reference<T>`. -/
def is_reference : CppType → Bool
  | lref _ => true
  | rref _ => true
  | _ => false

/-- Value of `std::is_pointer<T>`: true for `U*` and its cv-qualified versions. -/
def is_pointer : CppType → Bool
  | ptr _ => true
  | const_ T => is_pointer T
  | _ => false

/-- Value of `std::is_const<T>`. -/
def is_const : CppType → Bool
  | const_ _ => true
  | _ => false

/-- Value of `std::is_class<T>`; cv-qualification does not change it. -/
def is_class : CppType → Bool
  | jl_value_t => true
  | jl_datatype_t => true
  | WrappedCppPtr => true
  | ObjectIdDict => true
  | SingletonType _ => true
  | StrictlyTypedNumber _ => true
  | record _ _ => true
  | const_ T => is_class T
  | _ => false

/-- Value of `std::is_standard_layout<T>`. Scalars, enumerations and pointers
are standard-layout; the structs of the header and of `julia.h` have it from
their members (`StrictlyTypedNumber<N>` holds one `N`). -/
def is_standard_layout : CppType → Bool
  | void => false
  | arith _ => true
  | enumeration _ => true
  | jl_value_t => true
  | jl_datatype_t => true
  | WrappedCppPtr => true
  | ObjectIdDict => true
  | SingletonType _ => true
  | StrictlyTypedNumber N => is_standard_layout N
  | record _ tr => tr.is_standard_layout
  | const_ T => is_standard_layout T
  | ptr _ => true
  | lref _ => false
  | rref _ => false

/-- Value of `std::is_trivially_copyable<T>`. -/
def is_trivially_copyable : CppType → Bool
  | void => false
  | arith _ => true
  | enumeration _ => true
  | jl_value_t => true
  | jl_datatype_t => true
  | WrappedCppPtr => true
  | ObjectIdDict => true
  | SingletonType _ => true
  | StrictlyTypedNumber N => is_trivially_copyable N
  | record _ tr => tr.is_trivially_copyable
  | const_ T => is_trivially_copyable T
  | ptr _ => true
  | lref _ => false
  | rref _ => false

/-- Whether `T` has a trivial default constructor
(`std::is_trivially_default_constructible<T>`). -/
def has_trivial_default_constructor : CppType → Bool
  | void => false
  | arith _ => true
  | enumeration _ => true
  | jl_value_t => true
  | jl_datatype_t => true
  | WrappedCppPtr => true
  | ObjectIdDict => true
  | SingletonType _ => true
  | StrictlyTypedNumber N => has_trivial_default_constructor N
  | record _ tr => tr.has_trivial_default_constructor
  | const_ T => has_trivial_default_constructor T
  | ptr _ => true
  | lref _ => false
  | rref _ => false

/-- Value of `std::is_trivial<T>`: a trivial type is trivially copyable and
has a trivial default constructor. -/
def is_trivial (T : CppType) : Bool :=
  T.is_trivially_copyable && T.has_trivial_default_constructor

end CppType

open CppType

/-! ## Trait classifier -/

/-- `IsMirroredType<T>::value`:
`!std::is_class<T>::value || (std::is_standard_layout<T>::value && std::is_trivial<T>::value)`. -/
def IsMirroredType (T : CppType) : Bool :=
  !T.is_class || (T.is_standard_layout && T.is_trivial)

/-- The four tag structs `NoMappingTrait`, `CxxWrappedTrait`, `WrappedPtrTrait`
and `DirectPtrTrait`. -/
inductive Trait where
  | NoMappingTrait
  | CxxWrappedTrait
  | WrappedPtrTrait
  | DirectPtrTrait
  deriving DecidableEq, Repr

/-- The specializations of `MappingTrait` written in the header, the primary
template apart. -/
inductive MappingTraitSpec where
  -- MappingTrait<T&>
  | lvalue_reference
  -- MappingTrait<T*>
  | pointer
  -- MappingTrait<jl_value_t*>, an explicit specialization
  | jl_value_pointer
  -- MappingTrait<T, typename std::enable_if<!IsMirroredType<T>::value>::type>
  | not_mirrored
  deriving DecidableEq, Repr

namespace MappingTraitSpec

/-- Whether the argument list `<T, void>` matches the specialization. -/
def matches_ : MappingTraitSpec → CppType → Bool
  | lvalue_reference, .lref _ => true
  | lvalue_reference, _ => false
  | pointer, .ptr _ => true
  | pointer, _ => false
  | jl_value_pointer, .ptr .jl_value_t => true
  | jl_value_pointer, _ => false
  | not_mirrored, T => !IsMirroredType T

/-- The member `type` of the specialization. -/
def type : MappingTraitSpec → Trait
  | lvalue_reference => .WrappedPtrTrait
  | pointer => .WrappedPtrTrait
  | jl_value_pointer => .DirectPtrTrait
  | not_mirrored => .CxxWrappedTrait

end MappingTraitSpec

/-- The partial specializations of `MappingTrait` that match `T`. -/
def MappingTrait.matching (T : CppType) : List MappingTraitSpec :=
  [MappingTraitSpec.lvalue_reference, MappingTraitSpec.pointer,
    MappingTraitSpec.not_mirrored].filter (fun s => s.matches_ T)

/-- Instantiation of `MappingTrait<T>::type`: the explicit specialization when
it matches, otherwise the only matching partial specialization, otherwise the
primary template (`NoMappingTrait`). Two matching partial specializations
make the instantiation ambiguous, which is `none`. -/
def MappingTrait (T : CppType) : Option Trait :=
  if MappingTraitSpec.jl_value_pointer.matches_ T then
    some MappingTraitSpec.jl_value_pointer.type
  else
    match MappingTrait.matching T with
    | [] => some .NoMappingTrait
    | [s] => some s.type
    | _ => none

/-- The alias `mapping_trait<T>`, with the specializations read in the order
in which they are selected. -/
def mapping_trait : CppType → Trait
  | .lref _ => .WrappedPtrTrait
  | .ptr .jl_value_t => .DirectPtrTrait
  | .ptr _ => .WrappedPtrTrait
  | T => if !IsMirroredType T then .CxxWrappedTrait else .NoMappingTrait

/-- The priority rules of the trait classifier, written out as a decision
list: an lvalue reference is `WrappedPtrTrait`; `jl_value_t*` is
`DirectPtrTrait`; any other cv-unqualified pointer is `WrappedPtrTrait`; any
other type that is a class and is not standard-layout and trivial is
`CxxWrappedTrait`; every remaining type is `NoMappingTrait`. -/
def strategy_by_priority (T : CppType) : Trait :=
  match T with
  | .lref _ => .WrappedPtrTrait
  | .ptr U => if U = .jl_value_t then .DirectPtrTrait else .WrappedPtrTrait
  | _ =>
    if T.is_class && !(T.is_standard_layout && T.is_trivially_copyable
        && T.has_trivial_default_constructor) then .CxxWrappedTrait
    else .NoMappingTrait

/-! ## Static type mapping -/

/-- Members of `struct WrappedCppPtr { void* voidptr; }`, name and type, in
declaration order. -/
def WrappedCppPtr.members : List (String × CppType) :=
  [("voidptr", .ptr .void)]

/-- Member `type` of `static_type_mapping<SourceT, TraitT>`. The explicit
specialization `static_type_mapping<ObjectIdDict>` has the default second
argument `mapping_trait<ObjectIdDict>`, the specialization for `SourceT&` the
default `mapping_trait<SourceT&>`; the last line is the primary template. -/
def static_type_mapping : CppType → Trait → CppType
  | .ObjectIdDict, .NoMappingTrait => .ptr .jl_value_t
  | .lref _, .WrappedPtrTrait => .WrappedCppPtr
  | .ptr _, .WrappedPtrTrait => .WrappedCppPtr
  | .ptr SourceT, .DirectPtrTrait => .ptr SourceT
  | _, .CxxWrappedTrait => .WrappedCppPtr
  | SourceT, _ => SourceT

/-- The alias `static_julia_type<T>`, which is `static_type_mapping<T>::type`
with the trait argument defaulted to `mapping_trait<T>`. -/
def static_julia_type (T : CppType) : CppType :=
  static_type_mapping T (mapping_trait T)

/-! ## Dynamic type registry -/

/-- An address held in a `jl_datatype_t*` or `jl_value_t*`. -/
abbrev Address := Nat

/-- The null pointer. -/
def nullptr : Address := 0

/-- A thrown `std::runtime_error` with its message. -/
structure runtime_error where
  what : String
  deriving DecidableEq, Repr

/-- Entry points of the host runtime and of the C++ implementation that the
header calls but does not define. `apply_type tc p` is
`apply_type(tc, jl_svec1(p))`, `julia_type name` is `jlcxx::julia_type(name)`,
`super dt` is `dt->super`, `typeid_name T` is `typeid(T).name()`,
`finalizer T` is the address of the function `detail::finalizer<T>`. -/
structure Julia where
  apply_type : Address → Address → Address
  julia_type : String → Address
  super : Address → Address
  julia_type_name : Address → String
  typeid_name : CppType → String
  jl_voidpointer_type : Address
  jl_any_type : Address
  jl_datatype_nfields : Address → Nat
  jl_field_type : Address → Nat → Address
  finalizer : CppType → Address

/-- The call `protect_from_gc(v)`, recorded in the list of protected values. -/
def protect_from_gc (v : Address) (gc_protected : List Address) : List Address :=
  gc_protected ++ [v]

/-- Object of `struct CachedDatatype`. -/
structure CachedDatatype where
  m_dt : Address := nullptr
  deriving DecidableEq, Repr

namespace CachedDatatype

/-- Method `CachedDatatype::set_dt`; returns the object and the protected list. -/
def set_dt (self : CachedDatatype) (dt : Address) (gc_protected : List Address) :
    CachedDatatype × List Address :=
  let self := { self with m_dt := dt }
  if self.m_dt ≠ nullptr then
    (self, protect_from_gc self.m_dt gc_protected)
  else
    (self, gc_protected)

/-- Method `CachedDatatype::get_dt`. -/
def get_dt (self : CachedDatatype) : Address :=
  self.m_dt

/-- Constructor `CachedDatatype(jl_datatype_t* dt)`, which calls `set_dt(dt)`. -/
def ctor (dt : Address) (gc_protected : List Address) : CachedDatatype × List Address :=
  set_dt {} dt gc_protected

end CachedDatatype

/-- Process state the registry works on: the static member
`dynamic_type_mapping<T>::m_dt` of every `T`, the function-local static `dt`
of `CachedTypeMapping<T, true>::julia_type` of every `T` (`none` until its
initialization has completed), the values passed to `protect_from_gc` so far,
and the lines written to `std::cout`. -/
structure State where
  m_dt : CppType → CachedDatatype
  dt : CppType → Option CachedDatatype
  gc_protected : List Address
  cout : List String

/-- State at program start: every static member default-constructed, no local
static initialized. -/
def State.init : State where
  m_dt := fun _ => {}
  dt := fun _ => none
  gc_protected := []
  cout := []

namespace dynamic_type_mapping

/-- Member `storing_dt`, declared by the primary template only; `none` where a
specialization is selected (every `T*` and every `T&`). -/
def storing_dt : CppType → Option Bool
  | .ptr _ => none
  | .lref _ => none
  | _ => some true

/-- Primary template, `julia_type()`. -/
def primary_julia_type (jl : Julia) (SourceT : CppType) (s : State) :
    Except runtime_error Address :=
  if (s.m_dt SourceT).get_dt = nullptr then
    .error ⟨"Type " ++ jl.typeid_name SourceT ++ " has no Julia wrapper"⟩
  else
    .ok (s.m_dt SourceT).get_dt

/-- Primary template, `set_julia_type(dt)`. -/
def set_julia_type (jl : Julia) (SourceT : CppType) (dt : Address) (s : State) :
    Except runtime_error Unit × State :=
  if (s.m_dt SourceT).get_dt ≠ nullptr then
    (.error ⟨"Type " ++ jl.typeid_name SourceT ++ " already had a mapped type set"⟩, s)
  else
    let r := (s.m_dt SourceT).set_dt dt s.gc_protected
    (.ok (), { s with
      m_dt := fun U => if U = SourceT then r.1 else s.m_dt U
      gc_protected := r.2 })

end dynamic_type_mapping

/-- Function `detail::GetDynamicPtrT<T, TraitT>::type()`, given the outcome
of `dynamic_type_mapping<T>::julia_type()`: the specialization for
`CxxWrappedTrait` returns `->super` of it, the primary template returns it. -/
def detail.GetDynamicPtrT.type (jl : Julia) (TraitT : Trait)
    (julia_type : Except runtime_error Address) : Except runtime_error Address :=
  match TraitT with
  | .CxxWrappedTrait => julia_type.map jl.super
  | _ => julia_type

/-- Function `dynamic_type_mapping<T>::julia_type()`, for every `T`: the
explicit specializations for `void*`, `jl_datatype_t*` and `jl_value_t*`, the
specializations for `const SourceT&`, `SourceT&`, `const SourceT*` and
`SourceT*`, and the primary template. It reads the state and changes nothing. -/
def dynamic_type_mapping.julia_type (jl : Julia) (s : State) :
    CppType → Except runtime_error Address
  | .ptr .void => .ok jl.jl_voidpointer_type
  | .ptr .jl_datatype_t => .ok jl.jl_any_type
  | .ptr .jl_value_t => .ok jl.jl_any_type
  | .lref (.const_ SourceT) =>
    (detail.GetDynamicPtrT.type jl (mapping_trait SourceT)
      (dynamic_type_mapping.julia_type jl s SourceT)).map
      (jl.apply_type (jl.julia_type "ConstCxxRef"))
  | .lref SourceT =>
    (detail.GetDynamicPtrT.type jl (mapping_trait SourceT)
      (dynamic_type_mapping.julia_type jl s SourceT)).map
      (jl.apply_type (jl.julia_type "CxxRef"))
  | .ptr (.const_ SourceT) =>
    (detail.GetDynamicPtrT.type jl (mapping_trait SourceT)
      (dynamic_type_mapping.julia_type jl s SourceT)).map
      (jl.apply_type (jl.julia_type "ConstCxxPtr"))
  | .ptr SourceT =>
    (detail.GetDynamicPtrT.type jl (mapping_trait SourceT)
      (dynamic_type_mapping.julia_type jl s SourceT)).map
      (jl.apply_type (jl.julia_type "CxxPtr"))
  | T => dynamic_type_mapping.primary_julia_type jl T s

/-- Value of `NeedsStorage<T>`: the specialization applies where
`dynamic_type_mapping<T>::storing_dt` exists and is true, and then gives
`!storing_dt`; the primary template gives `true`. -/
def NeedsStorage (T : CppType) : Bool :=
  match dynamic_type_mapping.storing_dt T with
  | some storing => if storing then !storing else true
  | none => true

/-- Function `CachedTypeMapping<T, needs_storage>::julia_type()`. With
`needs_storage` the local static `dt` is initialized on the first execution
that completes (an exception thrown by the initializer leaves it
uninitialized), and every execution writes one line to `std::cout`. -/
def CachedTypeMapping.julia_type (jl : Julia) (T : CppType) (needs_storage : Bool)
    (s : State) : Except runtime_error Address × State :=
  if needs_storage then
    match s.dt T with
    | some dt =>
      (.ok dt.get_dt,
        { s with cout := s.cout ++ ["used a cached map for " ++ jl.julia_type_name dt.get_dt] })
    | none =>
      match dynamic_type_mapping.julia_type jl s T with
      | .error e => (.error e, s)
      | .ok v =>
        let r := CachedDatatype.ctor v s.gc_protected
        (.ok r.1.get_dt,
          { s with
            dt := fun U => if U = T then some r.1 else s.dt U
            gc_protected := r.2
            cout := s.cout ++ ["used a cached map for " ++ jl.julia_type_name r.1.get_dt] })
  else
    (dynamic_type_mapping.julia_type jl s T, s)

/-- Function template `julia_type<T>()`. -/
def julia_type (jl : Julia) (T : CppType) (s : State) : Except runtime_error Address × State :=
  CachedTypeMapping.julia_type jl T (NeedsStorage T) s

/-- Function template `set_julia_type<T>(dt)`. It is instantiable only where
`dynamic_type_mapping<T>` is the primary template, the specializations having
no member `set_julia_type`. -/
def set_julia_type (jl : Julia) (T : CppType) (dt : Address) (s : State) :
    Except runtime_error Unit × State :=
  dynamic_type_mapping.set_julia_type jl T dt s

/-- A call into the registry. -/
inductive RegistryCall where
  | set_julia_type (T : CppType) (dt : Address)
  | julia_type (T : CppType)
  deriving DecidableEq, Repr

/-- State after one registry call, whether it returned or threw. -/
def RegistryCall.run (jl : Julia) : RegistryCall → State → State
  | .set_julia_type T dt, s => (jlcxx.set_julia_type jl T dt s).2
  | .julia_type T, s => (jlcxx.julia_type jl T s).2

/-- State after a sequence of registry calls, made in order. -/
def run_calls (jl : Julia) (calls : List RegistryCall) (s : State) : State :=
  calls.foldl (fun s c => c.run jl s) s

/-- `Resolved T d s`: in state `s` the descriptor of `T` is fixed to `d`.
Where `julia_type<T>()` caches, the local static of `T` is initialized and
holds `d`; otherwise the registry slot of `T` holds the non-null `d`. -/
def Resolved (T : CppType) (d : Address) (s : State) : Prop :=
  if NeedsStorage T then s.dt T = some ⟨d⟩
  else (s.m_dt T).get_dt = d ∧ d ≠ nullptr

/-- `CacheConsistent jl s`: every initialized local static of
`CachedTypeMapping<T, true>::julia_type` holds the value that
`dynamic_type_mapping<T>::julia_type()` returns in state `s`. -/
def CacheConsistent (jl : Julia) (s : State) : Prop :=
  ∀ U c, s.dt U = some c → dynamic_type_mapping.julia_type jl s U = .ok c.get_dt

/-- A host runtime for evaluating the registry on concrete inputs: the
parametric type of constructor `tc` over `p` has address `1000 * tc + p`, the
wrapper constructors have addresses 2 to 5, the supertype of `dt` is
`dt + 100`, every datatype has one field of type `jl_voidpointer_type`. -/
def sample_julia : Julia where
  apply_type := fun tc p => 1000 * tc + p
  julia_type := fun name =>
    if name = "CxxRef" then 2
    else if name = "ConstCxxRef" then 3
    else if name = "CxxPtr" then 4
    else if name = "ConstCxxPtr" then 5
    else 9
  super := fun dt => dt + 100
  julia_type_name := fun dt => if dt = 12 then "Any" else "DataType"
  typeid_name := fun T =>
    match T with
    | .void => "v"
    | .arith .int32_t => "i"
    | .record name _ => name
    | _ => "T"
  jl_voidpointer_type := 11
  jl_any_type := 12
  jl_datatype_nfields := fun _ => 1
  jl_field_type := fun _ _ => 11
  finalizer := fun T =>
    match T with
    | .record _ _ => 501
    | _ => 500

/-! ## Host heap and boxing of scalars -/

/-- How a call ends when it does not return: a thrown exception, undefined
behaviour of C++ (reading through a null or invalid pointer), a failed
`assert`, or a call that has no valid instantiation. -/
inductive Abort where
  | exception (e : runtime_error)
  | undefined_behavior
  | assertion_failed
  | no_instantiation
  deriving DecidableEq, Repr

/-- Host type of a boxed value (its `jl_typeof`): the built-in bits types used
by the header, or a datatype given by its descriptor. -/
inductive HostType where
  | jl_bool_type
  | jl_int32_type
  | jl_int64_type
  | jl_uint32_type
  | jl_uint64_type
  | jl_voidpointer_type
  | datatype (dt : Address)
  deriving DecidableEq, Repr

/-- Width in bits of the data of a built-in bits type; a pointer has 64. -/
def HostType.nbits : HostType → Nat
  | .jl_bool_type => 8
  | .jl_int32_type => 32
  | .jl_int64_type => 64
  | .jl_uint32_type => 32
  | .jl_uint64_type => 64
  | .jl_voidpointer_type => 64
  | .datatype _ => 64

/-- Whether the built-in bits type is a signed integer type. -/
def HostType.is_signed : HostType → Bool
  | .jl_int32_type => true
  | .jl_int64_type => true
  | _ => false

/-- A host object: its type and its data area, read as an unsigned number. -/
structure Boxed where
  type : HostType
  data : Nat
  deriving DecidableEq, Repr

/-- Object of `struct WrappedCppPtr`. -/
structure WrappedCppPtr where
  voidptr : Address
  deriving DecidableEq, Repr

/-- Memory the conversion layer works on. The host side: the objects
allocated by the host runtime, the next address its allocator hands out, the
finalizers registered with `jl_gc_add_finalizer` (object and boxed function
pointer), the stack of GC frames (each the current values of the variables it
roots) and, for every host call that can allocate, the values rooted at that
moment. The C++ side: the objects created by `new` with their values, the next
address `new` hands out, and the addresses passed to `delete`. -/
structure Memory where
  jl_objects : Address → Option Boxed
  jl_next : Address
  finalizers : List (Address × Address)
  gc_stack : List (List Address)
  gc_safepoints : List (List Address)
  cpp_objects : Address → Option Int
  cpp_next : Address
  deleted : List Address

/-- Memory with no object; both allocators start at address 1. -/
def Memory.init : Memory where
  jl_objects := fun _ => none
  jl_next := 1
  finalizers := []
  gc_stack := []
  gc_safepoints := []
  cpp_objects := fun _ => none
  cpp_next := 1
  deleted := []

namespace Memory

/-- Allocation of a host object: the rooted values are recorded, the object
is placed at the next address. -/
def jl_alloc (m : Memory) (b : Boxed) : Address × Memory :=
  (m.jl_next,
    { m with
      jl_objects := fun a => if a = m.jl_next then some b else m.jl_objects a
      jl_next := m.jl_next + 1
      gc_safepoints := m.gc_safepoints ++ [m.gc_stack.flatten] })

/-- Read of the data area of a host object, `jl_data_ptr(v)`; reading where
there is no object is undefined. -/
def jl_data (m : Memory) (v : Address) : Except Abort Nat :=
  match m.jl_objects v with
  | some b => .ok b.data
  | none => .error .undefined_behavior

end Memory

/-- Object representation of a two's complement or unsigned integer in `w` bits. -/
def to_bits (w : Nat) (x : Int) : Nat :=
  (x % (2 : Int) ^ w).toNat

/-- Value of `w` bits read as a two's complement integer. -/
def of_bits_signed (w : Nat) (d : Nat) : Int :=
  if d % 2 ^ w < 2 ^ (w - 1) then ((d % 2 ^ w : Nat) : Int)
  else ((d % 2 ^ w : Nat) : Int) - (2 : Int) ^ w

/-- Value of `w` bits read as an unsigned integer. -/
def of_bits_unsigned (w : Nat) (d : Nat) : Int :=
  ((d % 2 ^ w : Nat) : Int)

/-! Host API for boxing: `jl_box_X(x)` allocates an object of type `X` holding
`x`, `jl_unbox_X(v)` reads the data of `v` at the width and signedness of `X`. -/

/-- Host function `jl_box_bool`. -/
def jl_box_bool (b : Bool) (m : Memory) : Address × Memory :=
  m.jl_alloc ⟨.jl_bool_type, if b then 1 else 0⟩

/-- Host function `jl_box_int32`. -/
def jl_box_int32 (x : Int) (m : Memory) : Address × Memory :=
  m.jl_alloc ⟨.jl_int32_type, to_bits 32 x⟩

/-- Host function `jl_box_int64`. -/
def jl_box_int64 (x : Int) (m : Memory) : Address × Memory :=
  m.jl_alloc ⟨.jl_int64_type, to_bits 64 x⟩

/-- Host function `jl_box_uint32`. -/
def jl_box_uint32 (x : Int) (m : Memory) : Address × Memory :=
  m.jl_alloc ⟨.jl_uint32_type, to_bits 32 x⟩

/-- Host function `jl_box_uint64`. -/
def jl_box_uint64 (x : Int) (m : Memory) : Address × Memory :=
  m.jl_alloc ⟨.jl_uint64_type, to_bits 64 x⟩

/-- Host function `jl_box_voidpointer`. -/
def jl_box_voidpointer (p : Address) (m : Memory) : Address × Memory :=
  m.jl_alloc ⟨.jl_voidpointer_type, p⟩

/-- Host function `jl_unbox_bool`. -/
def jl_unbox_bool (v : Address) (m : Memory) : Except Abort Bool :=
  (m.jl_data v).map (fun d => decide (d % 2 ^ 8 ≠ 0))

/-- Host function `jl_unbox_int32`. -/
def jl_unbox_int32 (v : Address) (m : Memory) : Except Abort Int :=
  (m.jl_data v).map (of_bits_signed 32)

/-- Host function `jl_unbox_int64`. -/
def jl_unbox_int64 (v : Address) (m : Memory) : Except Abort Int :=
  (m.jl_data v).map (of_bits_signed 64)

/-- Host function `jl_unbox_uint32`. -/
def jl_unbox_uint32 (v : Address) (m : Memory) : Except Abort Int :=
  (m.jl_data v).map (of_bits_unsigned 32)

/-- Host function `jl_unbox_uint64`. -/
def jl_unbox_uint64 (v : Address) (m : Memory) : Except Abort Int :=
  (m.jl_data v).map (of_bits_unsigned 64)

/-- Host function `jl_unbox_voidpointer`. -/
def jl_unbox_voidpointer (v : Address) (m : Memory) : Except Abort Address :=
  m.jl_data v

namespace box

/-- Specialization `box(const bool& b)`. -/
def bool (b : Bool) (m : Memory) : Address × Memory :=
  jl_box_bool b m

/-- Specialization `box(const int32_t& i)`. -/
def int32_t (i : Int) (m : Memory) : Address × Memory :=
  jl_box_int32 i m

/-- Specialization `box(const int64_t& i)`. -/
def int64_t (i : Int) (m : Memory) : Address × Memory :=
  jl_box_int64 i m

/-- Specialization `box(const uint32_t& i)`. -/
def uint32_t (i : Int) (m : Memory) : Address × Memory :=
  jl_box_uint32 i m

/-- Specialization `box(const uint64_t& i)`. -/
def uint64_t (i : Int) (m : Memory) : Address × Memory :=
  jl_box_uint64 i m

/-- Specialization `box(void* const& x)`. -/
def void_pointer (x : Address) (m : Memory) : Address × Memory :=
  jl_box_voidpointer x m

end box

namespace unbox

/-- Primary template `unbox<CppT>(v)`, which is
`*reinterpret_cast<CppT*>(jl_data_ptr(v))`: the data of `v`. -/
def primary (v : Address) (m : Memory) : Except Abort Nat :=
  m.jl_data v

/-- Specialization `unbox<bool>`. -/
def bool (v : Address) (m : Memory) : Except Abort Bool :=
  jl_unbox_bool v m

/-- Specialization `unbox<int32_t>`. -/
def int32_t (v : Address) (m : Memory) : Except Abort Int :=
  jl_unbox_int32 v m

/-- Specialization `unbox<int64_t>`. -/
def int64_t (v : Address) (m : Memory) : Except Abort Int :=
  jl_unbox_int64 v m

/-- Specialization `unbox<uint32_t>`. -/
def uint32_t (v : Address) (m : Memory) : Except Abort Int :=
  jl_unbox_uint32 v m

/-- Specialization `unbox<uint64_t>`. -/
def uint64_t (v : Address) (m : Memory) : Except Abort Int :=
  jl_unbox_uint64 v m

/-- Specialization `unbox<void*>`. -/
def void_pointer (v : Address) (m : Memory) : Except Abort Address :=
  jl_unbox_voidpointer v m

end unbox

/-! ## Finalizer, GC frames and boxed pointers -/

/-- Function `extract_pointer<CppT>(p)`: the stored address; the
`reinterpret_cast` keeps it. -/
def extract_pointer (p : WrappedCppPtr) : Address :=
  p.voidptr

/-- Function `unbox_wrapped_ptr<T>(v)`: member `voidptr` of
`unbox<WrappedCppPtr>(v)`. -/
def unbox_wrapped_ptr (v : Address) (m : Memory) : Except Abort Address :=
  (unbox.primary v m).map (fun d => (WrappedCppPtr.mk d).voidptr)

namespace Memory

/-- Expression `delete p`: the object at `p` is destroyed and the call is
recorded. -/
def delete (m : Memory) (p : Address) : Memory :=
  { m with
    cpp_objects := fun a => if a = p then none else m.cpp_objects a
    deleted := m.deleted ++ [p] }

/-- Expression `new T(x)`: a copy of the value `x` is placed at the next
address. -/
def new_copy (m : Memory) (x : Int) : Address × Memory :=
  (m.cpp_next,
    { m with
      cpp_objects := fun a => if a = m.cpp_next then some x else m.cpp_objects a
      cpp_next := m.cpp_next + 1 })

/-- Assignment `reinterpret_cast<WrappedCppPtr*>(v)->voidptr = p`: the data
of the host object at `v` becomes `p`. -/
def store_voidptr (m : Memory) (v p : Address) : Memory :=
  { m with
    jl_objects := fun a =>
      if a = v then (m.jl_objects v).map (fun b => { b with data := p })
      else m.jl_objects a }

/-- Macro `JL_GC_PUSH3(&a, &b, &c)`: a frame rooting three variables, given
by their current values. -/
def JL_GC_PUSH3 (m : Memory) (a b c : Address) : Memory :=
  { m with gc_stack := [a, b, c] :: m.gc_stack }

/-- Macro `JL_GC_POP()`. -/
def JL_GC_POP (m : Memory) : Memory :=
  { m with gc_stack := m.gc_stack.tail }

/-- Assignment of `v` to the `i`-th variable rooted by the top frame. -/
def assign_rooted (m : Memory) (i : Nat) (v : Address) : Memory :=
  { m with
    gc_stack :=
      match m.gc_stack with
      | [] => []
      | frame :: frames => frame.set i v :: frames }

end Memory

/-- Host function `jl_new_struct(dt, field)` for a datatype with one field of
type `Ptr{Cvoid}`: the pointer held by the boxed `field` is stored inline. -/
def jl_new_struct (dt field : Address) (m : Memory) : Except Abort (Address × Memory) :=
  match m.jl_data field with
  | .error e => .error e
  | .ok p => .ok (m.jl_alloc ⟨.datatype dt, p⟩)

/-- Host function `jl_gc_add_finalizer(v, f)`; it can allocate. -/
def jl_gc_add_finalizer (v f : Address) (m : Memory) : Memory :=
  { m with
    finalizers := m.finalizers ++ [(v, f)]
    gc_safepoints := m.gc_safepoints ++ [m.gc_stack.flatten] }

/-- Function `detail::finalizer<T>(to_delete)`. -/
def detail.finalizer (to_delete : Address) (m : Memory) : Except Abort Memory :=
  match unbox_wrapped_ptr to_delete m with
  | .error e => .error e
  | .ok stored_obj =>
    let m := if stored_obj ≠ nullptr then m.delete stored_obj else m
    .ok (m.store_voidptr to_delete nullptr)

/-- Function `boxed_cpp_pointer<T>(cpp_ptr, dt, add_finalizer)`. The locals
`void_ptr`, `result` and `finalizer` start as `nullptr`. -/
def boxed_cpp_pointer (jl : Julia) (T : CppType) (cpp_ptr dt : Address) (add_finalizer : Bool)
    (m : Memory) : Except Abort (Address × Memory) :=
  if jl.jl_datatype_nfields dt ≠ 1 then .error .assertion_failed
  else if jl.jl_field_type dt 0 ≠ jl.jl_voidpointer_type then .error .assertion_failed
  else
    let m := m.JL_GC_PUSH3 nullptr nullptr nullptr
    let void_ptr := jl_box_voidpointer cpp_ptr m
    let m := void_ptr.2.assign_rooted 0 void_ptr.1
    match jl_new_struct dt void_ptr.1 m with
    | .error e => .error e
    | .ok result =>
      let m := result.2.assign_rooted 1 result.1
      let m :=
        if add_finalizer then
          let finalizer := jl_box_voidpointer (jl.finalizer T) m
          let m := finalizer.2.assign_rooted 2 finalizer.1
          jl_gc_add_finalizer result.1 finalizer.1 m
        else m
      .ok (result.1, m.JL_GC_POP)

/-- Value of `std::is_fundamental<T>`. -/
def CppType.is_fundamental : CppType → Bool
  | .void => true
  | .arith _ => true
  | .const_ T => is_fundamental T
  | _ => false

/-- Type `std::remove_pointer<T>::type`. -/
def CppType.remove_pointer : CppType → CppType
  | .ptr T => T
  | .const_ (.ptr T) => T
  | T => T

/-- Value of `std::is_void<T>`: true for `void` and its cv-qualified versions. -/
def CppType.is_void : CppType → Bool
  | .void => true
  | .const_ T => is_void T
  | _ => false

/-- Value of `std::is_rvalue_reference<T>`. -/
def CppType.is_rvalue_reference : CppType → Bool
  | .rref _ => true
  | _ => false

/-- Type `std::remove_reference<T>::type`. -/
def CppType.remove_reference : CppType → CppType
  | .lref T => T
  | .rref T => T
  | T => T

/-- Type `std::remove_const<T>::type`; a repeated `const` is one `const`. -/
def CppType.remove_const : CppType → CppType
  | .const_ T => remove_const T
  | T => T

/-- Alias `remove_const_ref<T>`:
`std::remove_const<std::remove_reference<T>::type>::type`. -/
def remove_const_ref (T : CppType) : CppType :=
  T.remove_reference.remove_const

/-- Function `julia_owned<T>(cpp_ptr)`. The `static_assert` rejects a
fundamental `T`; `julia_type<T>()` is evaluated before the call of
`boxed_cpp_pointer`. -/
def julia_owned (jl : Julia) (T : CppType) (cpp_ptr : Address) (s : State) (m : Memory) :
    Except Abort Address × State × Memory :=
  if T.is_fundamental then (.error .no_instantiation, s, m)
  else
    match julia_type jl T s with
    | (.error e, s1) => (.error (.exception e), s1, m)
    | (.ok dt, s1) =>
      match boxed_cpp_pointer jl T cpp_ptr dt true m with
      | .error e => (.error e, s1, m)
      | .ok r => (.ok r.1, s1, r.2)

/-! ## Conversion layer -/

/-- A C++ value handed to or returned by a conversion: a value of a type
passed by value (an integer, or the object representation of another type
read as a number), a pointer, or a reference, which is given by the address
of the object it refers to. -/
inductive Native where
  | value (x : Int)
  | pointer (p : Address)
  | reference (a : Address)
  deriving DecidableEq, Repr

/-- A value on the wire: a C++ value passed unchanged, a `WrappedCppPtr`, or
a `jl_value_t*` made by boxing. -/
inductive Wire where
  | same (x : Native)
  | handle (h : WrappedCppPtr)
  | boxed (v : Address)
  deriving DecidableEq, Repr

/-- Expression `*ptr` used as an lvalue: undefined for the null pointer. -/
def dereference (ptr : Address) : Except Abort Address :=
  if ptr = nullptr then .error .undefined_behavior else .ok ptr

/-- Copy of the object designated by `*ptr`: undefined for the null pointer
and where no object lives. -/
def Memory.copy_of (m : Memory) (ptr : Address) : Except Abort Int :=
  match dereference ptr with
  | .error e => .error e
  | .ok a =>
    match m.cpp_objects a with
    | some x => .ok x
    | none => .error .undefined_behavior

namespace ConvertToJulia

/-- Primary template `ConvertToJulia<T, TraitT>::operator()(cpp_val)`, with
`cpp_val` bound to the object at address `cpp_val`: `new T(cpp_val)`, then
`julia_owned`. The two `static_assert`s come first. -/
def primary (jl : Julia) (T : CppType) (cpp_val : Address) (s : State) (m : Memory) :
    Except Abort Address × State × Memory :=
  if static_julia_type T ≠ .WrappedCppPtr then (.error .no_instantiation, s, m)
  else if !T.is_class then (.error .no_instantiation, s, m)
  else
    match m.copy_of cpp_val with
    | .error e => (.error e, s, m)
    | .ok x =>
      let cpp_obj := m.new_copy x
      julia_owned jl T cpp_obj.1 s cpp_obj.2

/-- Specialization `ConvertToJulia<T&, WrappedPtrTrait>`: the address of
`cpp_val` in a `WrappedCppPtr`. -/
def reference (cpp_val : Address) : WrappedCppPtr :=
  ⟨cpp_val⟩

/-- Specialization `ConvertToJulia<T*, WrappedPtrTrait>`. -/
def pointer (cpp_val : Address) : WrappedCppPtr :=
  ⟨cpp_val⟩

/-- Specialization `ConvertToJulia<T*, DirectPtrTrait>`. -/
def direct_pointer (cpp_val : Address) : Address :=
  cpp_val

/-- Specialization `ConvertToJulia<T, NoMappingTrait>`:
`T operator()(const T& cpp_val)` returns `cpp_val`. The operator does not
exist for `void`, which has no `const void&`, nor for an rvalue reference
`U&&`: there `const T&` is `U&`, which the forwarded argument of
`convert_to_julia` does not bind to, and the lvalue `cpp_val` does not bind
to the returned `U&&`. -/
def no_mapping (T : CppType) (cpp_val : Native) : Except Abort Native :=
  if T.is_void || T.is_rvalue_reference then .error .no_instantiation
  else .ok cpp_val

end ConvertToJulia

/-- Function `convert_to_julia<T>(cpp_val)`: `ConvertToJulia<T>` with the
trait `mapping_trait<T>`, applied to `cpp_val`. An argument that is not of
type `T` has no instantiation. -/
def convert_to_julia (jl : Julia) (T : CppType) (cpp_val : Native) (s : State) (m : Memory) :
    Except Abort Wire × State × Memory :=
  match T, mapping_trait T, cpp_val with
  | .lref _, .WrappedPtrTrait, .reference a =>
    (.ok (.handle (ConvertToJulia.reference a)), s, m)
  | .ptr _, .WrappedPtrTrait, .pointer p =>
    (.ok (.handle (ConvertToJulia.pointer p)), s, m)
  | .ptr _, .DirectPtrTrait, .pointer p =>
    (.ok (.same (.pointer (ConvertToJulia.direct_pointer p))), s, m)
  | _, .NoMappingTrait, x =>
    ((ConvertToJulia.no_mapping T x).map Wire.same, s, m)
  | _, .CxxWrappedTrait, .reference a =>
    let r := ConvertToJulia.primary jl T a s m
    (r.1.map Wire.boxed, r.2)
  | _, _, _ => (.error .no_instantiation, s, m)

namespace ConvertToCpp

/-- Whether the class `ConvertToCpp<CppT, NoMappingTrait>` can be
instantiated, with its two operators `CppT operator()(CppT)` and
`CppT operator()(jl_value_t*)`: `void` is no parameter type, and for
`jl_value_t* const` the two would have the same signature, the `const` of a
parameter being no part of it. -/
def no_mapping_class (CppT : CppType) : Bool :=
  !CppT.is_void && !decide (CppT.remove_const = .ptr .jl_value_t)

/-- Specialization `ConvertToCpp<CppT, NoMappingTrait>`, the overload
`CppT operator()(CppT julia_val)`, which returns `julia_val`. The operator
cannot be used for an rvalue reference `U&&`: the lvalue `julia_val` of
`convert_to_cpp` does not bind to the parameter, nor the parameter to the
returned `U&&`. -/
def no_mapping (CppT : CppType) (julia_val : Native) : Except Abort Native :=
  if !no_mapping_class CppT || CppT.is_rvalue_reference then .error .no_instantiation
  else .ok julia_val

/-- Specialization `ConvertToCpp<CppT, NoMappingTrait>`, the overload taking
`jl_value_t*`, which is `unbox<CppT>(julia_val)`. For an rvalue reference
`U&&` the primary `unbox` would form a pointer to a reference. -/
def no_mapping_boxed (CppT : CppType) (julia_val : Address) (m : Memory) : Except Abort Native :=
  if !no_mapping_class CppT || CppT.is_rvalue_reference then .error .no_instantiation
  else
    match CppT with
    | .arith .bool => (unbox.bool julia_val m).map (fun b => .value (if b then 1 else 0))
    | .arith .int32_t => (unbox.int32_t julia_val m).map .value
    | .arith .int64_t => (unbox.int64_t julia_val m).map .value
    | .arith .uint32_t => (unbox.uint32_t julia_val m).map .value
    | .arith .uint64_t => (unbox.uint64_t julia_val m).map .value
    | _ => (unbox.primary julia_val m).map (fun d => .value d)

/-- Specialization `ConvertToCpp<CppT*, WrappedPtrTrait>`. -/
def pointer (julia_val : WrappedCppPtr) : Address :=
  extract_pointer julia_val

/-- Specialization `ConvertToCpp<CppT*, DirectPtrTrait>`. -/
def direct_pointer (julia_val : Address) : Address :=
  julia_val

/-- Specialization `ConvertToCpp<CppT&, WrappedPtrTrait>`:
`*extract_pointer<CppT>(julia_val)` returned as a reference. -/
def reference (julia_val : WrappedCppPtr) : Except Abort Address :=
  dereference (extract_pointer julia_val)

/-- Specialization `ConvertToCpp<CppT, CxxWrappedTrait>`:
`*extract_pointer<CppT>(julia_val)` returned by value. -/
def wrapped (julia_val : WrappedCppPtr) (m : Memory) : Except Abort Int :=
  m.copy_of (extract_pointer julia_val)

end ConvertToCpp

/-- Function `convert_to_cpp<CppT>(julia_val)`: `ConvertToCpp<CppT>` with the
trait `mapping_trait<CppT>`, applied to `julia_val`. The primary template
fails its `static_assert`. -/
def convert_to_cpp (CppT : CppType) (julia_val : Wire) (m : Memory) : Except Abort Native :=
  match CppT, mapping_trait CppT, julia_val with
  | _, .NoMappingTrait, .same x => ConvertToCpp.no_mapping CppT x
  | _, .NoMappingTrait, .boxed v => ConvertToCpp.no_mapping_boxed CppT v m
  | .ptr _, .WrappedPtrTrait, .handle h => .ok (.pointer (ConvertToCpp.pointer h))
  | .ptr _, .DirectPtrTrait, .same (.pointer p) =>
    .ok (.pointer (ConvertToCpp.direct_pointer p))
  | .lref _, .WrappedPtrTrait, .handle h => (ConvertToCpp.reference h).map .reference
  | _, .CxxWrappedTrait, .handle h => (ConvertToCpp.wrapped h m).map .value
  | _, _, _ => .error .no_instantiation

namespace detail

/-- Whether `return *ptr;` is well-formed in the primary
`DoUnpack<T>::operator()(CppT* ptr)`: the lvalue `*ptr`, of type `CppT`, has
to initialize the returned `T`. An lvalue reference binds to it when it
refers to `CppT` or to `const CppT`, an rvalue reference does not bind to an
lvalue, and a `T` that is no reference is a copy of an object of the same
type up to `const`; `void*` is not dereferenced. `CppT` is `T` stripped, as
`JuliaUnpacker`, the one caller in the header, passes it, so conversions
between other types are left out. -/
def DoUnpack.returns (T CppT : CppType) : Bool :=
  if CppT.is_void then false
  else
    match T with
    | .lref U => decide (U.remove_const = CppT.remove_const) && (U.is_const || !CppT.is_const)
    | .rref _ => false
    | _ => decide (T.remove_const = CppT.remove_const)

/-- Functor `detail::DoUnpack<T>`, applied to `ptr` of type `CppT*`: the
specializations for `T*` and `T*&&` return the pointer, by value; the
primary template throws for the null pointer and otherwise returns `*ptr` as
a `T`, a reference when `T` is a reference type and a copy of the object when
it is not. -/
def DoUnpack (T CppT : CppType) (ptr : Address) (m : Memory) : Except Abort Native :=
  match T with
  | .ptr _ => .ok (.pointer ptr)
  | .rref (.ptr _) => .ok (.pointer ptr)
  | _ =>
    if !DoUnpack.returns T CppT then .error .no_instantiation
    else if ptr = nullptr then .error (.exception ⟨"C++ object was deleted"⟩)
    else if T.is_reference then (dereference ptr).map .reference
    else (m.copy_of ptr).map .value

/-- Type `JuliaUnpacker<CppT>::stripped_cpp_t`: `CppT` without reference,
pointer and `const`. -/
def JuliaUnpacker.stripped_cpp_t (CppT : CppType) : CppType :=
  (remove_const_ref CppT).remove_pointer.remove_const

/-- Functor `detail::JuliaUnpacker<CppT>`, applied to `julia_value`:
`CppT operator()(const WrappedCppPtr&)` returns what `DoUnpack<CppT>` makes of
the stored address, cast to `stripped_cpp_t*`, as a `CppT`. For
`CppT = T*&&` the `T*` returned by `DoUnpack<T*&&>` is a temporary of the
return statement and the returned reference is bound to it: the caller holds
a reference to an object whose lifetime has ended, and reading the pointer
through it is undefined. -/
def JuliaUnpacker (CppT : CppType) (julia_value : WrappedCppPtr) (m : Memory) :
    Except Abort Native :=
  match CppT, DoUnpack CppT (JuliaUnpacker.stripped_cpp_t CppT) julia_value.voidptr m with
  | .rref (.ptr _), .ok _ => .error .undefined_behavior
  | _, r => r

end detail

/-- The two overloads of `box(const CppT& cpp_val)` enabled when
`mapped_julia_type<CppT>` is `WrappedCppPtr`: for a `CppT` that is not a
pointer, `boxed_cpp_pointer(&cpp_val, julia_type<CppT>(), false)`; for a
pointer, `boxed_cpp_pointer(cpp_val, julia_type<CppT>(), false)`. Neither is
enabled for another `CppT`. -/
def box.wrapped (jl : Julia) (CppT : CppType) (cpp_val : Native) (s : State) (m : Memory) :
    Except Abort Address × State × Memory :=
  if static_julia_type CppT ≠ .WrappedCppPtr then (.error .no_instantiation, s, m)
  else
    match julia_type jl CppT s with
    | (.error e, s1) => (.error (.exception e), s1, m)
    | (.ok dt, s1) =>
      match CppT.is_pointer, cpp_val with
      | false, .reference a =>
        match boxed_cpp_pointer jl (.const_ CppT) a dt false m with
        | .error e => (.error e, s1, m)
        | .ok r => (.ok r.1, s1, r.2)
      | true, .pointer p =>
        match boxed_cpp_pointer jl CppT.remove_pointer p dt false m with
        | .error e => (.error e, s1, m)
        | .ok r => (.ok r.1, s1, r.2)
      | _, _ => (.error .no_instantiation, s1, m)

/-! ## Wrapped `std::vector` (`stl.hpp`) -/

namespace stl

/-- Object of `std::vector<T>`: its elements in order and its capacity. Sizes
are natural numbers; running out of memory is not represented. -/
structure vector (T : Type) where
  elems : List T
  capacity : Nat

namespace vector

/-- Method `size()`. -/
def size {T : Type} (v : vector T) : Nat :=
  v.elems.length

/-- Method `reserve(n)`: the capacity becomes at least `n`, the elements stay. -/
def reserve {T : Type} (v : vector T) (n : Nat) : vector T :=
  { v with capacity := max v.capacity n }

/-- Method `push_back(x)`: `x` becomes the last element. -/
def push_back {T : Type} (v : vector T) (x : T) : vector T :=
  { elems := v.elems ++ [x], capacity := max v.capacity (v.elems.length + 1) }

end vector

/-- Object of `jlcxx::ArrayRef<T>`, whose class is declared outside the two
headers: it is taken as its `size()` and its `operator[]`. -/
structure ArrayRef (T : Type) where
  size : Nat
  index : Nat → T

/-- The elements `arr[0]`, ..., `arr[size() - 1]` of an `ArrayRef`. -/
def ArrayRef.elems {T : Type} (arr : ArrayRef T) : List T :=
  (List.range arr.size).map arr.index

/-- Loop `for(size_t i = 0; i != addedlen; ++i) v.push_back(arr[i]);` of the
`append` method, from the state `i`, `v`, run for at most `fuel` iterations;
`none` when the loop has not ended by then. -/
def WrapVector.append_loop {T : Type} (arr : ArrayRef T) (addedlen : Nat) :
    Nat → Nat → vector T → Option (vector T)
  | 0, i, v => if i ≠ addedlen then none else some v
  | fuel + 1, i, v =>
    if i ≠ addedlen then
      WrapVector.append_loop arr addedlen fuel (i + 1) (v.push_back (arr.index i))
    else some v

/-- The lambda wrapped as method `append` by `WrapVector::operator()`: the
vector after the call, the loop being given `fuel` iterations. -/
def WrapVector.append {T : Type} (fuel : Nat) (v : vector T) (arr : ArrayRef T) :
    Option (vector T) :=
  let addedlen := arr.size
  let v := v.reserve (v.size + addedlen)
  WrapVector.append_loop arr addedlen fuel 0 v

end stl

/-! ## Theorems: trait classifier -/

theorem IsMirroredType_of_not_class (T : CppType) (h : T.is_class = false) :
    IsMirroredType T = true := by
  simp [IsMirroredType, h]

theorem MappingTrait_eq (T : CppType) : MappingTrait T = some (mapping_trait T) := by
  cases T with
  | ptr U =>
    cases U <;>
      simp [MappingTrait, MappingTrait.matching, MappingTraitSpec.matches_, mapping_trait,
        MappingTraitSpec.type, IsMirroredType, CppType.is_class, List.filter]
  | lref U =>
    simp [MappingTrait, MappingTrait.matching, MappingTraitSpec.matches_, mapping_trait,
      MappingTraitSpec.type, IsMirroredType, CppType.is_class, List.filter]
  | _ =>
    simp only [MappingTrait, MappingTrait.matching, MappingTraitSpec.matches_, mapping_trait,
      MappingTraitSpec.type, List.filter]
    cases h : IsMirroredType _ <;> simp [h]

/-- Claim C1, as amended. Template resolution of `MappingTrait<T>` never is
ambiguous and selects the strategy of the priority list: an lvalue reference
is `WrappedPtrTrait`, `jl_value_t*` is `DirectPtrTrait`, any other
cv-unqualified pointer is `WrappedPtrTrait`, any other class type that is not
mirrored is `CxxWrappedTrait`, every remaining type is `NoMappingTrait`. The
remaining types include every rvalue reference and every const-qualified
pointer; no lvalue reference and no cv-unqualified pointer is `CxxWrappedTrait`
or `NoMappingTrait`. -/
theorem mapping_trait_priority_rules :
    (∀ T, MappingTrait T = some (strategy_by_priority T)) ∧
    (∀ T, mapping_trait T = strategy_by_priority T) ∧
    (∀ U, mapping_trait (.lref U) = .WrappedPtrTrait) ∧
    mapping_trait (.ptr .jl_value_t) = .DirectPtrTrait ∧
    (∀ U, mapping_trait (.ptr U) = .WrappedPtrTrait ∨ U = .jl_value_t) ∧
    (∀ U, mapping_trait (.rref U) = .NoMappingTrait) ∧
    (∀ U, mapping_trait (.const_ (.ptr U)) = .NoMappingTrait) := by
  have key : ∀ T, mapping_trait T = strategy_by_priority T := by
    intro T
    cases T with
    | ptr U => cases U <;> simp [mapping_trait, strategy_by_priority]
    | lref U => simp [mapping_trait, strategy_by_priority]
    | _ =>
      simp only [mapping_trait, strategy_by_priority, IsMirroredType, CppType.is_trivial,
        CppType.is_class, CppType.is_standard_layout, CppType.is_trivially_copyable,
        CppType.has_trivial_default_constructor]
      simp [Bool.and_assoc]
  refine ⟨fun T => ?_, key, fun U => rfl, rfl, fun U => ?_, fun U => ?_, fun U => ?_⟩
  · rw [MappingTrait_eq, key]
  · cases U <;> simp [mapping_trait]
  · simp [mapping_trait, IsMirroredType, CppType.is_class]
  · simp [mapping_trait, IsMirroredType, CppType.is_class]

/-- Claim C1, counterexample. The rvalue reference `int32_t&&` is a reference
type and the const-qualified pointer `int32_t* const` is a pointer type, and
both are classified `NoMappingTrait` (Direct). -/
theorem mapping_trait_reference_classified_direct :
    (CppType.rref (.arith .int32_t)).is_reference = true ∧
    MappingTrait (.rref (.arith .int32_t)) = some .NoMappingTrait ∧
    (CppType.const_ (.ptr (.arith .int32_t))).is_pointer = true ∧
    MappingTrait (.const_ (.ptr (.arith .int32_t))) = some .NoMappingTrait := by
  decide

/-- Claim C2, as amended. For every class type `T`, `IsMirroredType<T>` holds
if and only if `T` is standard-layout, trivially copyable and has a trivial
default constructor (that is, standard-layout and trivial), for every
combination of these properties; a class type is `NoMappingTrait` when it is
mirrored and `CxxWrappedTrait` when it is not. -/
theorem IsMirroredType_class (T : CppType) (h : T.is_class = true) :
    IsMirroredType T = (T.is_standard_layout && T.is_trivially_copyable &&
      T.has_trivial_default_constructor) ∧
    mapping_trait T = (if IsMirroredType T then .NoMappingTrait else .CxxWrappedTrait) := by
  constructor
  · simp [IsMirroredType, h, CppType.is_trivial, Bool.and_assoc]
  · cases hm : IsMirroredType T <;>
      cases T <;> simp_all [CppType.is_class, mapping_trait]

theorem IsMirroredType_class_witness :
    (CppType.record "P" ⟨true, true, true⟩).is_class = true ∧
    (IsMirroredType (.record "P" ⟨true, true, true⟩) =
      ((CppType.record "P" ⟨true, true, true⟩).is_standard_layout &&
        (CppType.record "P" ⟨true, true, true⟩).is_trivially_copyable &&
        (CppType.record "P" ⟨true, true, true⟩).has_trivial_default_constructor) ∧
     mapping_trait (.record "P" ⟨true, true, true⟩) =
      (if IsMirroredType (.record "P" ⟨true, true, true⟩) then .NoMappingTrait
        else .CxxWrappedTrait)) :=
  ⟨by decide, IsMirroredType_class (.record "P" ⟨true, true, true⟩) (by decide)⟩

/-- Claim C2, counterexample. A class that is standard-layout and trivially
copyable but has a user-provided default constructor is not mirrored, and is
classified `CxxWrappedTrait`. -/
theorem IsMirroredType_needs_trivial_default_constructor :
    (CppType.record "P" ⟨true, true, false⟩).is_class = true ∧
    ((CppType.record "P" ⟨true, true, false⟩).is_trivially_copyable &&
      (CppType.record "P" ⟨true, true, false⟩).is_standard_layout) = true ∧
    IsMirroredType (.record "P" ⟨true, true, false⟩) = false ∧
    MappingTrait (.record "P" ⟨true, true, false⟩) = some .CxxWrappedTrait := by
  decide

/-! ## Theorems: static type mapping -/

/-- Claim C3. For every `T` classified `WrappedPtrTrait` or `CxxWrappedTrait`
the wire type `static_julia_type<T>` is `WrappedCppPtr`, and `WrappedCppPtr`
has exactly one member, of type `void*`. -/
theorem static_julia_type_wrapped (T : CppType)
    (h : MappingTrait T = some .WrappedPtrTrait ∨ MappingTrait T = some .CxxWrappedTrait) :
    static_julia_type T = .WrappedCppPtr ∧
    WrappedCppPtr.members.length = 1 ∧
    WrappedCppPtr.members.map Prod.snd = [.ptr .void] := by
  refine ⟨?_, rfl, rfl⟩
  simp only [MappingTrait_eq, Option.some.injEq] at h
  unfold static_julia_type
  rcases h with h | h
  · rw [h]
    cases T with
    | ptr U => rfl
    | lref U => rfl
    | _ =>
      simp only [mapping_trait] at h
      split at h <;> simp at h
  · rw [h]
    cases T <;> rfl

theorem static_julia_type_wrapped_witness :
    (MappingTrait (.lref (.record "Foo" ⟨false, false, false⟩)) = some .WrappedPtrTrait ∨
      MappingTrait (.lref (.record "Foo" ⟨false, false, false⟩)) = some .CxxWrappedTrait) ∧
    (static_julia_type (.lref (.record "Foo" ⟨false, false, false⟩)) = .WrappedCppPtr ∧
      WrappedCppPtr.members.length = 1 ∧
      WrappedCppPtr.members.map Prod.snd = [.ptr .void]) :=
  ⟨by decide, static_julia_type_wrapped _ (by decide)⟩

/-- Claim C4, as amended. For every `T` classified `NoMappingTrait` other than
`ObjectIdDict`, and for `jl_value_t*` (`DirectPtrTrait`), the wire type
`static_julia_type<T>` is `T` itself; this covers `SingletonType<U>` and every
`StrictlyTypedNumber<N>` so classified. For `ObjectIdDict` the wire type is
`jl_value_t*`. -/
theorem static_julia_type_direct (T : CppType)
    (h : MappingTrait T = some .NoMappingTrait ∨ MappingTrait T = some .DirectPtrTrait)
    (hT : T ≠ .ObjectIdDict) :
    static_julia_type T = T ∧
    (∀ U, static_julia_type (.SingletonType U) = .SingletonType U) ∧
    static_julia_type .ObjectIdDict = .ptr .jl_value_t := by
  refine ⟨?_, fun U => rfl, by decide⟩
  simp only [MappingTrait_eq, Option.some.injEq] at h
  unfold static_julia_type
  rcases h with h | h
  · rw [h]
    cases T <;> first | rfl | exact absurd rfl hT
  · rw [h]
    cases T with
    | ptr U => rfl
    | lref U => simp [mapping_trait] at h
    | _ =>
      simp only [mapping_trait] at h
      split at h <;> simp at h

theorem static_julia_type_direct_witness :
    (MappingTrait (.StrictlyTypedNumber (.arith .double)) = some .NoMappingTrait ∨
      MappingTrait (.StrictlyTypedNumber (.arith .double)) = some .DirectPtrTrait) ∧
    CppType.StrictlyTypedNumber (.arith .double) ≠ .ObjectIdDict ∧
    (static_julia_type (.StrictlyTypedNumber (.arith .double)) =
        .StrictlyTypedNumber (.arith .double) ∧
      (∀ U, static_julia_type (.SingletonType U) = .SingletonType U) ∧
      static_julia_type .ObjectIdDict = .ptr .jl_value_t) :=
  ⟨by decide, by decide, static_julia_type_direct _ (by decide) (by decide)⟩

/-- Claim C4, counterexample. `ObjectIdDict` is classified `NoMappingTrait`,
and its wire type is `jl_value_t*`, not `ObjectIdDict`. -/
theorem static_julia_type_ObjectIdDict :
    MappingTrait .ObjectIdDict = some .NoMappingTrait ∧
    static_julia_type .ObjectIdDict = .ptr .jl_value_t ∧
    static_julia_type .ObjectIdDict ≠ .ObjectIdDict := by
  decide

/-! ## Theorems: dynamic type registry -/

theorem NeedsStorage_eq_false_iff (T : CppType) :
    NeedsStorage T = false ↔ dynamic_type_mapping.storing_dt T = some true := by
  cases T <;> simp [NeedsStorage, dynamic_type_mapping.storing_dt]

theorem dynamic_julia_type_of_not_NeedsStorage (jl : Julia) (s : State) (T : CppType)
    (hT : NeedsStorage T = false) :
    dynamic_type_mapping.julia_type jl s T = dynamic_type_mapping.primary_julia_type jl T s := by
  cases T <;>
    first
    | rfl
    | simp [NeedsStorage, dynamic_type_mapping.storing_dt] at hT

theorem julia_type_of_not_NeedsStorage (jl : Julia) (s : State) (T : CppType)
    (hT : NeedsStorage T = false) :
    julia_type jl T s = (dynamic_type_mapping.primary_julia_type jl T s, s) := by
  simp [julia_type, CachedTypeMapping.julia_type, hT,
    dynamic_julia_type_of_not_NeedsStorage jl s T hT]

theorem set_julia_type_ok_m_dt (jl : Julia) (T : CppType) (d : Address) (s s1 : State)
    (h : set_julia_type jl T d s = (.ok (), s1)) :
    (s1.m_dt T).get_dt = d ∧ (∀ U, U ≠ T → s1.m_dt U = s.m_dt U) ∧ s1.dt = s.dt ∧
      s1.cout = s.cout := by
  unfold set_julia_type dynamic_type_mapping.set_julia_type at h
  split at h
  · simp at h
  · simp only [Prod.mk.injEq, true_and] at h
    subst h
    refine ⟨?_, fun U hU => ?_, rfl, rfl⟩
    · simp only [CachedDatatype.set_dt, CachedDatatype.get_dt, if_true]
      split <;> rfl
    · simp [hU]

theorem julia_type_registered (jl : Julia) (T : CppType) (d : Address) (s : State)
    (hT : NeedsStorage T = false) (hd : d ≠ nullptr) (hs : (s.m_dt T).get_dt = d) :
    julia_type jl T s = (.ok d, s) := by
  rw [julia_type_of_not_NeedsStorage jl s T hT]
  simp [dynamic_type_mapping.primary_julia_type, hs, hd]

theorem set_julia_type_registered (jl : Julia) (T : CppType) (d d2 : Address) (s : State)
    (hd : d ≠ nullptr) (hs : (s.m_dt T).get_dt = d) :
    set_julia_type jl T d2 s =
      (.error ⟨"Type " ++ jl.typeid_name T ++ " already had a mapped type set"⟩, s) := by
  simp [set_julia_type, dynamic_type_mapping.set_julia_type, hs, hd]

/-- Claim C5, as amended. For every `T` stored by the default registry slot,
every non-null descriptor `d1` and every `d2`: after `set_julia_type<T>(d1)`
has returned, `set_julia_type<T>(d2)` throws "already had a mapped type set"
and leaves the state unchanged, and `julia_type<T>()` still returns `d1`. -/
theorem set_julia_type_twice (jl : Julia) (T : CppType) (d1 d2 : Address) (s s1 : State)
    (hT : NeedsStorage T = false) (hd : d1 ≠ nullptr)
    (h1 : set_julia_type jl T d1 s = (.ok (), s1)) :
    set_julia_type jl T d2 s1 =
      (.error ⟨"Type " ++ jl.typeid_name T ++ " already had a mapped type set"⟩, s1) ∧
    julia_type jl T (set_julia_type jl T d2 s1).2 = (.ok d1, s1) := by
  have hs := (set_julia_type_ok_m_dt jl T d1 s s1 h1).1
  have h2 := set_julia_type_registered jl T d1 d2 s1 hd hs
  refine ⟨h2, ?_⟩
  rw [h2]
  exact julia_type_registered jl T d1 s1 hT hd hs

theorem set_julia_type_twice_witness :
    NeedsStorage (.arith .int32_t) = false ∧ (7 : Address) ≠ nullptr ∧
    set_julia_type sample_julia (.arith .int32_t) 7 State.init =
      (.ok (), (set_julia_type sample_julia (.arith .int32_t) 7 State.init).2) ∧
    (set_julia_type sample_julia (.arith .int32_t) 8
        (set_julia_type sample_julia (.arith .int32_t) 7 State.init).2 =
      (.error ⟨"Type " ++ sample_julia.typeid_name (.arith .int32_t) ++
          " already had a mapped type set"⟩,
        (set_julia_type sample_julia (.arith .int32_t) 7 State.init).2) ∧
     julia_type sample_julia (.arith .int32_t)
        (set_julia_type sample_julia (.arith .int32_t) 8
          (set_julia_type sample_julia (.arith .int32_t) 7 State.init).2).2 =
      (.ok 7, (set_julia_type sample_julia (.arith .int32_t) 7 State.init).2)) :=
  ⟨by decide, by decide, rfl,
    set_julia_type_twice sample_julia (.arith .int32_t) 7 8 State.init _ (by decide)
      (by decide) rfl⟩

/-- Claim C5, counterexample. With the null descriptor as `d1`, the first
`set_julia_type<int32_t>(nullptr)` returns, the second call
`set_julia_type<int32_t>(8)` returns as well instead of throwing, and
`julia_type<int32_t>()` then returns 8, not `d1`. -/
theorem set_julia_type_after_null_succeeds :
    (set_julia_type sample_julia (.arith .int32_t) nullptr State.init).1 = .ok () ∧
    (set_julia_type sample_julia (.arith .int32_t) 8
        (set_julia_type sample_julia (.arith .int32_t) nullptr State.init).2).1 = .ok () ∧
    (julia_type sample_julia (.arith .int32_t)
        (set_julia_type sample_julia (.arith .int32_t) 8
          (set_julia_type sample_julia (.arith .int32_t) nullptr State.init).2).2).1 =
      .ok 8 :=
  ⟨rfl, rfl, rfl⟩

theorem RegistryCall.run_m_dt (jl : Julia) (T : CppType) (c : RegistryCall) (s : State)
    (hc : ∀ d, c ≠ .set_julia_type T d) : (c.run jl s).m_dt T = s.m_dt T := by
  cases c with
  | julia_type U =>
    simp only [RegistryCall.run, jlcxx.julia_type, CachedTypeMapping.julia_type]
    split
    · split
      · rfl
      · split <;> rfl
    · rfl
  | set_julia_type U d =>
    have hU : T ≠ U := fun h => hc d (by rw [h])
    simp only [RegistryCall.run, jlcxx.set_julia_type, dynamic_type_mapping.set_julia_type]
    split
    · rfl
    · simp [hU]

theorem run_calls_m_dt (jl : Julia) (T : CppType) (calls : List RegistryCall) :
    ∀ s : State, (∀ d, RegistryCall.set_julia_type T d ∉ calls) →
      (run_calls jl calls s).m_dt T = s.m_dt T := by
  induction calls with
  | nil => intro s _; rfl
  | cons c cs ih =>
    intro s h
    have hc : ∀ d, c ≠ .set_julia_type T d := fun d hcd => h d (by simp [hcd])
    have hcs : ∀ d, RegistryCall.set_julia_type T d ∉ cs := fun d hd => h d (by simp [hd])
    show (run_calls jl cs (c.run jl s)).m_dt T = s.m_dt T
    rw [ih (c.run jl s) hcs, RegistryCall.run_m_dt jl T c s hc]

/-- Claim C6. For every `T` stored by the default registry slot: in a state
reached from program start by registry calls none of which is
`set_julia_type<T>`, `julia_type<T>()` throws "has no Julia wrapper", returns
no descriptor and leaves the state unchanged; and after a
`set_julia_type<T>(d)` that returned, with `d` non-null, `julia_type<T>()`
returns `d`. -/
theorem julia_type_unregistered (jl : Julia) (T : CppType) (calls : List RegistryCall)
    (hT : NeedsStorage T = false) (hc : ∀ d, RegistryCall.set_julia_type T d ∉ calls) :
    julia_type jl T (run_calls jl calls State.init) =
      (.error ⟨"Type " ++ jl.typeid_name T ++ " has no Julia wrapper"⟩,
        run_calls jl calls State.init) ∧
    ∀ (s s1 : State) (d : Address), d ≠ nullptr →
      set_julia_type jl T d s = (.ok (), s1) → julia_type jl T s1 = (.ok d, s1) := by
  constructor
  · rw [julia_type_of_not_NeedsStorage jl _ T hT, dynamic_type_mapping.primary_julia_type,
      run_calls_m_dt jl T calls State.init hc]
    rfl
  · intro s s1 d hd h
    exact julia_type_registered jl T d s1 hT hd (set_julia_type_ok_m_dt jl T d s s1 h).1

theorem julia_type_unregistered_witness :
    NeedsStorage (.arith .int32_t) = false ∧
    (∀ d, RegistryCall.set_julia_type (.arith .int32_t) d ∉
      [RegistryCall.set_julia_type .void 6, RegistryCall.julia_type (.ptr .void)]) ∧
    (julia_type sample_julia (.arith .int32_t)
        (run_calls sample_julia
          [RegistryCall.set_julia_type .void 6, RegistryCall.julia_type (.ptr .void)]
          State.init) =
      (.error ⟨"Type " ++ sample_julia.typeid_name (.arith .int32_t) ++
          " has no Julia wrapper"⟩,
        run_calls sample_julia
          [RegistryCall.set_julia_type .void 6, RegistryCall.julia_type (.ptr .void)]
          State.init) ∧
     ∀ (s s1 : State) (d : Address), d ≠ nullptr →
      set_julia_type sample_julia (.arith .int32_t) d s = (.ok (), s1) →
      julia_type sample_julia (.arith .int32_t) s1 = (.ok d, s1)) :=
  ⟨by decide, by simp,
    julia_type_unregistered sample_julia (.arith .int32_t)
      [RegistryCall.set_julia_type .void 6, RegistryCall.julia_type (.ptr .void)]
      (by decide) (by simp)⟩

theorem julia_type_m_dt (jl : Julia) (U : CppType) (s : State) :
    (julia_type jl U s).2.m_dt = s.m_dt := by
  simp only [julia_type, CachedTypeMapping.julia_type]
  split
  · split
    · rfl
    · split <;> rfl
  · rfl

theorem julia_type_dt_of_some (jl : Julia) (T U : CppType) (s : State) (c : CachedDatatype)
    (h : s.dt T = some c) : (julia_type jl U s).2.dt T = some c := by
  simp only [julia_type, CachedTypeMapping.julia_type]
  split
  · split
    · exact h
    · rename_i hU
      split
      · exact h
      · have hne : T ≠ U := fun e => by rw [e, hU] at h; cases h
        simp [hne, h]
  · exact h

theorem set_julia_type_dt (jl : Julia) (U : CppType) (d : Address) (s : State) :
    (set_julia_type jl U d s).2.dt = s.dt := by
  simp only [set_julia_type, dynamic_type_mapping.set_julia_type]
  split <;> rfl

theorem set_julia_type_m_dt_of_ne_null (jl : Julia) (T U : CppType) (d : Address) (s : State)
    (h : (s.m_dt T).get_dt ≠ nullptr) : (set_julia_type jl U d s).2.m_dt T = s.m_dt T := by
  simp only [set_julia_type, dynamic_type_mapping.set_julia_type]
  split
  · rfl
  · rename_i hU
    have hne : T ≠ U := fun e => by rw [e] at h; exact hU h
    simp [hne]

theorem Resolved_of_julia_type_ok (jl : Julia) (T : CppType) (d : Address) (s s1 : State)
    (h : julia_type jl T s = (.ok d, s1)) : Resolved T d s1 := by
  unfold Resolved
  simp only [julia_type, CachedTypeMapping.julia_type] at h
  cases hN : NeedsStorage T
  · simp only [hN, Bool.false_eq_true, if_false, Prod.mk.injEq] at h ⊢
    obtain ⟨h1, h2⟩ := h
    subst h2
    rw [dynamic_julia_type_of_not_NeedsStorage jl s T hN,
      dynamic_type_mapping.primary_julia_type] at h1
    split at h1
    · cases h1
    · rename_i hnull
      simp only [Except.ok.injEq] at h1
      exact ⟨h1, h1 ▸ hnull⟩
  · simp only [hN, if_true] at h ⊢
    split at h
    · rename_i c hc
      simp only [Prod.mk.injEq, Except.ok.injEq] at h
      obtain ⟨h1, h2⟩ := h
      subst h2
      simp only [hc, Option.some.injEq]
      cases c
      simpa [CachedDatatype.get_dt] using h1
    · split at h
      · simp at h
      · simp only [Prod.mk.injEq, Except.ok.injEq] at h
        obtain ⟨h1, h2⟩ := h
        subst h2
        simp only [if_true, Option.some.injEq]
        generalize (CachedDatatype.ctor _ s.gc_protected).1 = c at h1 ⊢
        cases c
        simpa [CachedDatatype.get_dt] using h1

theorem Resolved_run (jl : Julia) (T : CppType) (d : Address) (c : RegistryCall) (s : State)
    (h : Resolved T d s) : Resolved T d (c.run jl s) := by
  unfold Resolved at h ⊢
  cases hN : NeedsStorage T
  · simp only [hN, Bool.false_eq_true, if_false] at h ⊢
    have hnull : (s.m_dt T).get_dt ≠ nullptr := by rw [h.1]; exact h.2
    cases c with
    | julia_type U => simpa [RegistryCall.run, julia_type_m_dt] using h
    | set_julia_type U d2 =>
      simpa [RegistryCall.run, set_julia_type_m_dt_of_ne_null jl T U d2 s hnull] using h
  · simp only [hN, if_true] at h ⊢
    cases c with
    | julia_type U => exact julia_type_dt_of_some jl T U s _ h
    | set_julia_type U d2 => simpa [RegistryCall.run, set_julia_type_dt] using h

theorem Resolved_run_calls (jl : Julia) (T : CppType) (d : Address)
    (calls : List RegistryCall) :
    ∀ s : State, Resolved T d s → Resolved T d (run_calls jl calls s) := by
  induction calls with
  | nil => intro s h; exact h
  | cons c cs ih => intro s h; exact ih (c.run jl s) (Resolved_run jl T d c s h)

theorem julia_type_of_Resolved (jl : Julia) (T : CppType) (d : Address) (s : State)
    (h : Resolved T d s) : (julia_type jl T s).1 = .ok d := by
  unfold Resolved at h
  cases hN : NeedsStorage T
  · simp only [hN, Bool.false_eq_true, if_false] at h
    rw [julia_type_registered jl T d s hN h.2 h.1]
  · simp only [hN, if_true] at h
    simp [julia_type, CachedTypeMapping.julia_type, hN, h, CachedDatatype.get_dt]

/-- Claim C7. For every `T`, once a call `julia_type<T>()` has returned a
descriptor `d`, every later call `julia_type<T>()` returns `d` again, whatever
registry calls (on any types) are made in between. -/
theorem julia_type_idempotent (jl : Julia) (T : CppType) (d : Address) (s s1 : State)
    (calls : List RegistryCall) (h : julia_type jl T s = (.ok d, s1)) :
    (julia_type jl T (run_calls jl calls s1)).1 = .ok d :=
  julia_type_of_Resolved jl T d _
    (Resolved_run_calls jl T d calls s1 (Resolved_of_julia_type_ok jl T d s s1 h))

theorem julia_type_idempotent_witness :
    julia_type sample_julia (.ptr (.const_ (.arith .int32_t)))
        (set_julia_type sample_julia (.arith .int32_t) 7 State.init).2 =
      (.ok 5007,
        (julia_type sample_julia (.ptr (.const_ (.arith .int32_t)))
          (set_julia_type sample_julia (.arith .int32_t) 7 State.init).2).2) ∧
    (julia_type sample_julia (.ptr (.const_ (.arith .int32_t)))
        (run_calls sample_julia
          [RegistryCall.set_julia_type .void 6, RegistryCall.julia_type (.ptr .void),
            RegistryCall.set_julia_type (.arith .int32_t) 9]
          (julia_type sample_julia (.ptr (.const_ (.arith .int32_t)))
            (set_julia_type sample_julia (.arith .int32_t) 7 State.init).2).2)).1 =
      .ok 5007 :=
  ⟨rfl,
    julia_type_idempotent sample_julia (.ptr (.const_ (.arith .int32_t))) 5007
      (set_julia_type sample_julia (.arith .int32_t) 7 State.init).2 _
      [RegistryCall.set_julia_type .void 6, RegistryCall.julia_type (.ptr .void),
        RegistryCall.set_julia_type (.arith .int32_t) 9]
      rfl⟩

theorem julia_type_repeated (jl : Julia) (T : CppType) (d : Address) (s : State)
    (h : Resolved T d s) :
    (julia_type jl T s).2.m_dt = s.m_dt ∧ (julia_type jl T s).2.dt = s.dt ∧
    (julia_type jl T s).2.gc_protected = s.gc_protected ∧
    (julia_type jl T s).2.cout =
      (if NeedsStorage T then s.cout ++ ["used a cached map for " ++ jl.julia_type_name d]
        else s.cout) := by
  unfold Resolved at h
  cases hN : NeedsStorage T
  · simp only [hN, Bool.false_eq_true, if_false] at h ⊢
    rw [julia_type_registered jl T d s hN h.2 h.1]
    exact ⟨rfl, rfl, rfl, rfl⟩
  · simp only [hN, if_true] at h ⊢
    simp [julia_type, CachedTypeMapping.julia_type, hN, h, CachedDatatype.get_dt]

/-- Claim C8, the code at the failing input. After `set_julia_type<int32_t>(7)`
and a first `julia_type<int32_t*>()` that returned 4007, the repeated call
`julia_type<int32_t*>()` returns 4007 again, leaves the registry slots, the
caches and the list of protected values (7 and 4007, each protected once) as
they were, and appends the line "used a cached map for DataType" to
`std::cout`. -/
theorem julia_type_repeated_call_writes_cout :
    (julia_type sample_julia (.ptr (.arith .int32_t))
        (set_julia_type sample_julia (.arith .int32_t) 7 State.init).2).1 = .ok 4007 ∧
    (julia_type sample_julia (.ptr (.arith .int32_t))
        (julia_type sample_julia (.ptr (.arith .int32_t))
          (set_julia_type sample_julia (.arith .int32_t) 7 State.init).2).2).1 = .ok 4007 ∧
    (julia_type sample_julia (.ptr (.arith .int32_t))
        (julia_type sample_julia (.ptr (.arith .int32_t))
          (set_julia_type sample_julia (.arith .int32_t) 7 State.init).2).2).2.gc_protected =
      [7, 4007] ∧
    (julia_type sample_julia (.ptr (.arith .int32_t))
        (set_julia_type sample_julia (.arith .int32_t) 7 State.init).2).2.cout =
      ["used a cached map for DataType"] ∧
    (julia_type sample_julia (.ptr (.arith .int32_t))
        (julia_type sample_julia (.ptr (.arith .int32_t))
          (set_julia_type sample_julia (.arith .int32_t) 7 State.init).2).2).2.cout =
      ["used a cached map for DataType", "used a cached map for DataType"] :=
  ⟨rfl, rfl, rfl, rfl, rfl⟩

/-! ### Derived mappings -/

theorem dynamic_julia_type_lref_const (jl : Julia) (s : State) (S : CppType) :
    dynamic_type_mapping.julia_type jl s (.lref (.const_ S)) =
      (detail.GetDynamicPtrT.type jl (mapping_trait S)
        (dynamic_type_mapping.julia_type jl s S)).map
        (jl.apply_type (jl.julia_type "ConstCxxRef")) := by
  rfl

theorem dynamic_julia_type_lref (jl : Julia) (s : State) (S : CppType)
    (hS : S.is_const = false) :
    dynamic_type_mapping.julia_type jl s (.lref S) =
      (detail.GetDynamicPtrT.type jl (mapping_trait S)
        (dynamic_type_mapping.julia_type jl s S)).map
        (jl.apply_type (jl.julia_type "CxxRef")) := by
  cases S <;> first | rfl | simp [CppType.is_const] at hS

theorem dynamic_julia_type_ptr_const (jl : Julia) (s : State) (S : CppType) :
    dynamic_type_mapping.julia_type jl s (.ptr (.const_ S)) =
      (detail.GetDynamicPtrT.type jl (mapping_trait S)
        (dynamic_type_mapping.julia_type jl s S)).map
        (jl.apply_type (jl.julia_type "ConstCxxPtr")) := by
  rfl

theorem dynamic_julia_type_ptr (jl : Julia) (s : State) (S : CppType)
    (hS : S.is_const = false) (hv : S ≠ .void) (hd : S ≠ .jl_datatype_t)
    (hj : S ≠ .jl_value_t) :
    dynamic_type_mapping.julia_type jl s (.ptr S) =
      (detail.GetDynamicPtrT.type jl (mapping_trait S)
        (dynamic_type_mapping.julia_type jl s S)).map
        (jl.apply_type (jl.julia_type "CxxPtr")) := by
  cases S <;>
    first
    | exact absurd rfl hv
    | exact absurd rfl hd
    | exact absurd rfl hj
    | rfl
    | simp [CppType.is_const] at hS

theorem GetDynamicPtrT_map_stable (jl : Julia) (TraitT : Trait) (f : Address → Address)
    (x y : Except runtime_error Address) (hxy : ∀ w, x = .ok w → y = .ok w) (v : Address)
    (h : (detail.GetDynamicPtrT.type jl TraitT x).map f = .ok v) :
    (detail.GetDynamicPtrT.type jl TraitT y).map f = .ok v := by
  cases x with
  | error e => cases TraitT <;> simp [detail.GetDynamicPtrT.type, Except.map] at h
  | ok w => rw [hxy w rfl]; exact h

theorem primary_julia_type_stable (jl : Julia) (s s1 : State) (T : CppType)
    (hm : ∀ W, (s.m_dt W).get_dt ≠ nullptr → s1.m_dt W = s.m_dt W) (v : Address)
    (h : dynamic_type_mapping.primary_julia_type jl T s = .ok v) :
    dynamic_type_mapping.primary_julia_type jl T s1 = .ok v := by
  unfold dynamic_type_mapping.primary_julia_type at h ⊢
  split at h
  · cases h
  · rename_i hnull
    rw [hm T hnull, if_neg hnull]
    exact h

theorem dynamic_julia_type_stable (jl : Julia) (s s1 : State)
    (hm : ∀ W, (s.m_dt W).get_dt ≠ nullptr → s1.m_dt W = s.m_dt W) :
    ∀ (U : CppType) (v : Address), dynamic_type_mapping.julia_type jl s U = .ok v →
      dynamic_type_mapping.julia_type jl s1 U = .ok v := by
  intro U
  induction U using dynamic_type_mapping.julia_type.induct jl s with
  | case1 => intro v h; exact h
  | case2 => intro v h; exact h
  | case3 => intro v h; exact h
  | case4 S ih =>
    intro v h
    rw [dynamic_julia_type_lref_const] at h ⊢
    exact GetDynamicPtrT_map_stable jl _ _ _ _ ih v h
  | case5 S hS ih =>
    intro v h
    have hc : S.is_const = false := by
      cases S <;> first | rfl | exact absurd rfl (hS _)
    rw [dynamic_julia_type_lref jl _ S hc] at h ⊢
    exact GetDynamicPtrT_map_stable jl _ _ _ _ ih v h
  | case6 S ih =>
    intro v h
    rw [dynamic_julia_type_ptr_const] at h ⊢
    exact GetDynamicPtrT_map_stable jl _ _ _ _ ih v h
  | case7 S hv hd hj hS ih =>
    intro v h
    have hc : S.is_const = false := by
      cases S <;> first | rfl | exact absurd rfl (hS _)
    rw [dynamic_julia_type_ptr jl _ S hc hv hd hj] at h ⊢
    exact GetDynamicPtrT_map_stable jl _ _ _ _ ih v h
  | case8 T h1 h2 h3 h4 h5 h6 h7 =>
    intro v h
    have hT : NeedsStorage T = false := by
      cases T <;> first | rfl | exact absurd rfl (h5 _) | exact absurd rfl (h7 _)
    rw [dynamic_julia_type_of_not_NeedsStorage jl _ T hT] at h ⊢
    exact primary_julia_type_stable jl s s1 T hm v h

theorem CachedDatatype.ctor_get_dt (v : Address) (gc : List Address) :
    (CachedDatatype.ctor v gc).1.get_dt = v := by
  simp only [CachedDatatype.ctor, CachedDatatype.set_dt, CachedDatatype.get_dt]
  split <;> rfl

theorem julia_type_dt_cases (jl : Julia) (V U : CppType) (s : State) (c : CachedDatatype)
    (h : (julia_type jl V s).2.dt U = some c) :
    s.dt U = some c ∨ dynamic_type_mapping.julia_type jl s U = .ok c.get_dt := by
  simp only [julia_type, CachedTypeMapping.julia_type] at h
  split at h
  · split at h
    · exact Or.inl h
    · split at h
      · exact Or.inl h
      · rename_i v hv
        by_cases hUV : U = V
        · simp only [hUV, if_true, Option.some.injEq] at h
          right
          rw [hUV, hv, ← h, CachedDatatype.ctor_get_dt]
        · simp only [hUV, if_false] at h
          exact Or.inl h
  · exact Or.inl h

theorem CacheConsistent_init (jl : Julia) : CacheConsistent jl State.init := by
  intro U c h
  simp [State.init] at h

theorem CacheConsistent_run (jl : Julia) (c : RegistryCall) (s : State)
    (h : CacheConsistent jl s) : CacheConsistent jl (c.run jl s) := by
  intro U k hk
  cases c with
  | julia_type V =>
    simp only [RegistryCall.run] at hk ⊢
    have hm : ∀ W, (s.m_dt W).get_dt ≠ nullptr →
        (julia_type jl V s).2.m_dt W = s.m_dt W := by
      intro W _
      rw [julia_type_m_dt]
    apply dynamic_julia_type_stable jl s _ hm
    rcases julia_type_dt_cases jl V U s k hk with h1 | h1
    · exact h U k h1
    · exact h1
  | set_julia_type V d =>
    simp only [RegistryCall.run] at hk ⊢
    rw [set_julia_type_dt] at hk
    exact dynamic_julia_type_stable jl s _
      (fun W hW => set_julia_type_m_dt_of_ne_null jl W V d s hW) U _ (h U k hk)

theorem CacheConsistent_run_calls (jl : Julia) (calls : List RegistryCall) :
    ∀ s : State, CacheConsistent jl s → CacheConsistent jl (run_calls jl calls s) := by
  induction calls with
  | nil => intro s h; exact h
  | cons c cs ih => intro s h; exact ih (c.run jl s) (CacheConsistent_run jl c s h)

theorem julia_type_eq_dynamic (jl : Julia) (U : CppType) (v : Address) (s : State)
    (hs : CacheConsistent jl s) (h : dynamic_type_mapping.julia_type jl s U = .ok v) :
    (julia_type jl U s).1 = .ok v := by
  simp only [julia_type, CachedTypeMapping.julia_type]
  split
  · split
    · rename_i c hc
      have := hs U c hc
      rw [h] at this
      simpa using this.symm
    · simp only [h]
      rw [CachedDatatype.ctor_get_dt]
  · exact h

theorem dynamic_julia_type_registered (jl : Julia) (T : CppType) (d : Address) (s : State)
    (hT : NeedsStorage T = false) (hd : (s.m_dt T).get_dt = d) (hn : d ≠ nullptr) :
    dynamic_type_mapping.julia_type jl s T = .ok d := by
  rw [dynamic_julia_type_of_not_NeedsStorage jl s T hT]
  simp [dynamic_type_mapping.primary_julia_type, hd, hn]

theorem GetDynamicPtrT_type_of_ne (jl : Julia) (TraitT : Trait)
    (x : Except runtime_error Address) (h : TraitT ≠ .CxxWrappedTrait) :
    detail.GetDynamicPtrT.type jl TraitT x = x := by
  cases TraitT <;> simp_all [detail.GetDynamicPtrT.type]

theorem julia_type_builtin (jl : Julia) (s : State) (hs : CacheConsistent jl s) :
    (julia_type jl (.ptr .void) s).1 = .ok jl.jl_voidpointer_type ∧
    (julia_type jl (.ptr .jl_datatype_t) s).1 = .ok jl.jl_any_type ∧
    (julia_type jl (.ptr .jl_value_t) s).1 = .ok jl.jl_any_type :=
  ⟨julia_type_eq_dynamic jl _ _ s hs rfl, julia_type_eq_dynamic jl _ _ s hs rfl,
    julia_type_eq_dynamic jl _ _ s hs rfl⟩

/-- Claim C9, as amended. In every state reached from program start by
registry calls: for every `T` of the default registry slot that is neither a
reference type nor const-qualified, whose slot holds the non-null descriptor
`d` and whose strategy is not `CxxWrappedTrait`: unless `T` is `void`, which
has no reference types, `julia_type<T&>()` returns `apply_type(CxxRef, d)` and
`julia_type<const T&>()` returns `apply_type(ConstCxxRef, d)`;
`julia_type<const T*>()` returns `apply_type(ConstCxxPtr, d)`, and
`julia_type<T*>()` returns `apply_type(CxxPtr, d)` unless `T` is `void`,
`jl_datatype_t` or `jl_value_t`; `void*`, `jl_datatype_t*` and `jl_value_t*`
have the fixed descriptors `jl_voidpointer_type`, `jl_any_type` and
`jl_any_type`. For such a `T` the types `T&`, `const T&`, `T*` and `const T*`
are `lref T`, `lref (const_ T)`, `ptr T` and `ptr (const_ T)`. -/
theorem derived_julia_type (jl : Julia) (calls : List RegistryCall) (T : CppType)
    (d : Address) (hT : NeedsStorage T = false) (hr : T.is_reference = false)
    (hc : T.is_const = false) (ht : mapping_trait T ≠ .CxxWrappedTrait)
    (hd : ((run_calls jl calls State.init).m_dt T).get_dt = d) (hn : d ≠ nullptr) :
    T.remove_reference = T ∧
    (T ≠ .void →
      (julia_type jl (.lref T) (run_calls jl calls State.init)).1 =
        .ok (jl.apply_type (jl.julia_type "CxxRef") d) ∧
      (julia_type jl (.lref (.const_ T)) (run_calls jl calls State.init)).1 =
        .ok (jl.apply_type (jl.julia_type "ConstCxxRef") d)) ∧
    (julia_type jl (.ptr (.const_ T)) (run_calls jl calls State.init)).1 =
      .ok (jl.apply_type (jl.julia_type "ConstCxxPtr") d) ∧
    (T ≠ .void → T ≠ .jl_datatype_t → T ≠ .jl_value_t →
      (julia_type jl (.ptr T) (run_calls jl calls State.init)).1 =
        .ok (jl.apply_type (jl.julia_type "CxxPtr") d)) ∧
    (julia_type jl (.ptr .void) (run_calls jl calls State.init)).1 =
      .ok jl.jl_voidpointer_type ∧
    (julia_type jl (.ptr .jl_datatype_t) (run_calls jl calls State.init)).1 =
      .ok jl.jl_any_type ∧
    (julia_type jl (.ptr .jl_value_t) (run_calls jl calls State.init)).1 =
      .ok jl.jl_any_type := by
  have hs := CacheConsistent_run_calls jl calls State.init (CacheConsistent_init jl)
  have hdyn := dynamic_julia_type_registered jl T d _ hT hd hn
  refine ⟨?_, fun _ => ⟨?_, ?_⟩, ?_, fun hv hdt hj => ?_, julia_type_builtin jl _ hs⟩
  · cases T <;> first | rfl | simp [CppType.is_reference] at hr
  · apply julia_type_eq_dynamic jl _ _ _ hs
    rw [dynamic_julia_type_lref jl _ T hc, GetDynamicPtrT_type_of_ne jl _ _ ht, hdyn]
    rfl
  · apply julia_type_eq_dynamic jl _ _ _ hs
    rw [dynamic_julia_type_lref_const, GetDynamicPtrT_type_of_ne jl _ _ ht, hdyn]
    rfl
  · apply julia_type_eq_dynamic jl _ _ _ hs
    rw [dynamic_julia_type_ptr_const, GetDynamicPtrT_type_of_ne jl _ _ ht, hdyn]
    rfl
  · apply julia_type_eq_dynamic jl _ _ _ hs
    rw [dynamic_julia_type_ptr jl _ T hc hv hdt hj, GetDynamicPtrT_type_of_ne jl _ _ ht, hdyn]
    rfl

theorem derived_julia_type_witness :
    NeedsStorage (.arith .int32_t) = false ∧ (CppType.arith .int32_t).is_reference = false ∧
    (CppType.arith .int32_t).is_const = false ∧
    mapping_trait (.arith .int32_t) ≠ .CxxWrappedTrait ∧
    ((run_calls sample_julia [RegistryCall.set_julia_type (.arith .int32_t) 7]
        State.init).m_dt (.arith .int32_t)).get_dt = 7 ∧
    (7 : Address) ≠ nullptr ∧
    (julia_type sample_julia (.lref (.arith .int32_t))
        (run_calls sample_julia [RegistryCall.set_julia_type (.arith .int32_t) 7]
          State.init)).1 = .ok 2007 ∧
    (julia_type sample_julia (.lref (.const_ (.arith .int32_t)))
        (run_calls sample_julia [RegistryCall.set_julia_type (.arith .int32_t) 7]
          State.init)).1 = .ok 3007 ∧
    (julia_type sample_julia (.ptr (.const_ (.arith .int32_t)))
        (run_calls sample_julia [RegistryCall.set_julia_type (.arith .int32_t) 7]
          State.init)).1 = .ok 5007 ∧
    (julia_type sample_julia (.ptr (.arith .int32_t))
        (run_calls sample_julia [RegistryCall.set_julia_type (.arith .int32_t) 7]
          State.init)).1 = .ok 4007 :=
  have h := derived_julia_type sample_julia [RegistryCall.set_julia_type (.arith .int32_t) 7]
    (.arith .int32_t) 7 (by decide) (by decide) (by decide) (by decide) rfl (by decide)
  ⟨by decide, by decide, by decide, by decide, rfl, by decide, (h.2.1 (by decide)).1,
    (h.2.1 (by decide)).2, h.2.2.1, h.2.2.2.1 (by decide) (by decide) (by decide)⟩

/-- Claim C9, counterexample. `void` is classified `NoMappingTrait`; after
`set_julia_type<void>(6)` the call `julia_type<void*>()` returns
`jl_voidpointer_type` (11), not `apply_type(CxxPtr, 6)` (4006). Likewise for
`jl_datatype_t` registered with 6, `julia_type<jl_datatype_t*>()` returns
`jl_any_type` (12). -/
theorem julia_type_void_pointer_builtin :
    MappingTrait .void = some .NoMappingTrait ∧
    (set_julia_type sample_julia .void 6 State.init).1 = .ok () ∧
    (julia_type sample_julia .void (set_julia_type sample_julia .void 6 State.init).2).1 =
      .ok 6 ∧
    (julia_type sample_julia (.ptr .void)
        (set_julia_type sample_julia .void 6 State.init).2).1 = .ok 11 ∧
    sample_julia.apply_type (sample_julia.julia_type "CxxPtr") 6 = 4006 ∧
    MappingTrait .jl_datatype_t = some .NoMappingTrait ∧
    (julia_type sample_julia .jl_datatype_t
        (set_julia_type sample_julia .jl_datatype_t 6 State.init).2).1 = .ok 6 ∧
    (julia_type sample_julia (.ptr .jl_datatype_t)
        (set_julia_type sample_julia .jl_datatype_t 6 State.init).2).1 = .ok 12 :=
  ⟨by decide, rfl, rfl, rfl, by decide, by decide, rfl, rfl⟩

/-- Claim C10. In every state reached from program start by registry calls:
for every cv-unqualified class type `T` classified `CxxWrappedTrait` whose
registry slot holds the non-null descriptor `d`, `julia_type<T&>()`,
`julia_type<const T&>()`, `julia_type<T*>()` and `julia_type<const T*>()`
return `CxxRef`, `ConstCxxRef`, `CxxPtr` and `ConstCxxPtr` applied to
`d->super`. -/
theorem derived_julia_type_wrapped (jl : Julia) (calls : List RegistryCall) (T : CppType)
    (d : Address) (ht : MappingTrait T = some .CxxWrappedTrait) (hc : T.is_const = false)
    (hd : ((run_calls jl calls State.init).m_dt T).get_dt = d) (hn : d ≠ nullptr) :
    (julia_type jl (.lref T) (run_calls jl calls State.init)).1 =
      .ok (jl.apply_type (jl.julia_type "CxxRef") (jl.super d)) ∧
    (julia_type jl (.lref (.const_ T)) (run_calls jl calls State.init)).1 =
      .ok (jl.apply_type (jl.julia_type "ConstCxxRef") (jl.super d)) ∧
    (julia_type jl (.ptr T) (run_calls jl calls State.init)).1 =
      .ok (jl.apply_type (jl.julia_type "CxxPtr") (jl.super d)) ∧
    (julia_type jl (.ptr (.const_ T)) (run_calls jl calls State.init)).1 =
      .ok (jl.apply_type (jl.julia_type "ConstCxxPtr") (jl.super d)) := by
  simp only [MappingTrait_eq, Option.some.injEq] at ht
  have hs := CacheConsistent_run_calls jl calls State.init (CacheConsistent_init jl)
  have hT : NeedsStorage T = false := by
    cases T with
    | ptr U => cases U <;> simp [mapping_trait] at ht
    | lref U => simp [mapping_trait] at ht
    | _ => rfl
  have hv : T ≠ .void := by rintro rfl; revert ht; decide
  have hdt : T ≠ .jl_datatype_t := by rintro rfl; revert ht; decide
  have hj : T ≠ .jl_value_t := by rintro rfl; revert ht; decide
  have hdyn := dynamic_julia_type_registered jl T d _ hT hd hn
  refine ⟨?_, ?_, ?_, ?_⟩
  · apply julia_type_eq_dynamic jl _ _ _ hs
    rw [dynamic_julia_type_lref jl _ T hc, ht, hdyn]
    rfl
  · apply julia_type_eq_dynamic jl _ _ _ hs
    rw [dynamic_julia_type_lref_const, ht, hdyn]
    rfl
  · apply julia_type_eq_dynamic jl _ _ _ hs
    rw [dynamic_julia_type_ptr jl _ T hc hv hdt hj, ht, hdyn]
    rfl
  · apply julia_type_eq_dynamic jl _ _ _ hs
    rw [dynamic_julia_type_ptr_const, ht, hdyn]
    rfl

theorem derived_julia_type_wrapped_witness :
    MappingTrait (.record "Foo" ⟨false, false, false⟩) = some .CxxWrappedTrait ∧
    (CppType.record "Foo" ⟨false, false, false⟩).is_const = false ∧
    ((run_calls sample_julia
        [RegistryCall.set_julia_type (.record "Foo" ⟨false, false, false⟩) 7]
        State.init).m_dt (.record "Foo" ⟨false, false, false⟩)).get_dt = 7 ∧
    (7 : Address) ≠ nullptr ∧
    ((julia_type sample_julia (.lref (.record "Foo" ⟨false, false, false⟩))
        (run_calls sample_julia
          [RegistryCall.set_julia_type (.record "Foo" ⟨false, false, false⟩) 7]
          State.init)).1 = .ok 2107 ∧
     (julia_type sample_julia (.lref (.const_ (.record "Foo" ⟨false, false, false⟩)))
        (run_calls sample_julia
          [RegistryCall.set_julia_type (.record "Foo" ⟨false, false, false⟩) 7]
          State.init)).1 = .ok 3107 ∧
     (julia_type sample_julia (.ptr (.record "Foo" ⟨false, false, false⟩))
        (run_calls sample_julia
          [RegistryCall.set_julia_type (.record "Foo" ⟨false, false, false⟩) 7]
          State.init)).1 = .ok 4107 ∧
     (julia_type sample_julia (.ptr (.const_ (.record "Foo" ⟨false, false, false⟩)))
        (run_calls sample_julia
          [RegistryCall.set_julia_type (.record "Foo" ⟨false, false, false⟩) 7]
          State.init)).1 = .ok 5107) :=
  ⟨by decide, by decide, rfl, by decide,
    derived_julia_type_wrapped sample_julia
      [RegistryCall.set_julia_type (.record "Foo" ⟨false, false, false⟩) 7]
      (.record "Foo" ⟨false, false, false⟩) 7 (by decide) (by decide) rfl (by decide)⟩

/-! ## Theorems: boxing of scalars -/

theorem of_bits_signed_to_bits_32 (x : Int) (h1 : -2 ^ 31 ≤ x) (h2 : x < 2 ^ 31) :
    of_bits_signed 32 (to_bits 32 x) = x := by
  unfold of_bits_signed to_bits
  norm_num at *
  split <;> omega

theorem of_bits_signed_to_bits_64 (x : Int) (h1 : -2 ^ 63 ≤ x) (h2 : x < 2 ^ 63) :
    of_bits_signed 64 (to_bits 64 x) = x := by
  unfold of_bits_signed to_bits
  norm_num at *
  split <;> omega

theorem of_bits_unsigned_to_bits_32 (x : Int) (h1 : 0 ≤ x) (h2 : x < 2 ^ 32) :
    of_bits_unsigned 32 (to_bits 32 x) = x := by
  unfold of_bits_unsigned to_bits
  norm_num at *
  omega

theorem of_bits_unsigned_to_bits_64 (x : Int) (h1 : 0 ≤ x) (h2 : x < 2 ^ 64) :
    of_bits_unsigned 64 (to_bits 64 x) = x := by
  unfold of_bits_unsigned to_bits
  norm_num at *
  omega

theorem Memory.jl_data_jl_alloc (m : Memory) (b : Boxed) :
    (m.jl_alloc b).2.jl_data (m.jl_alloc b).1 = .ok b.data ∧
    (m.jl_alloc b).2.jl_objects (m.jl_alloc b).1 = some b := by
  simp [Memory.jl_alloc, Memory.jl_data]

/-- Claim C16. For `bool`, `int32_t`, `int64_t`, `uint32_t`, `uint64_t` and
`void*`, and every value of the type, `unbox<S>(box(x))` returns `x`, and the
object made by `box(x)` has the host type of the same width and signedness:
`Bool`, `Int32`, `Int64`, `UInt32`, `UInt64`, `Ptr{Cvoid}`. -/
theorem unbox_box_scalar (m : Memory) (b : Bool) (i32 i64 u32 u64 : Int) (p : Address)
    (h32 : -2 ^ 31 ≤ i32 ∧ i32 < 2 ^ 31) (h64 : -2 ^ 63 ≤ i64 ∧ i64 < 2 ^ 63)
    (hu32 : 0 ≤ u32 ∧ u32 < 2 ^ 32) (hu64 : 0 ≤ u64 ∧ u64 < 2 ^ 64) :
    (unbox.bool (box.bool b m).1 (box.bool b m).2 = .ok b ∧
      ((box.bool b m).2.jl_objects (box.bool b m).1).map Boxed.type = some .jl_bool_type) ∧
    (unbox.int32_t (box.int32_t i32 m).1 (box.int32_t i32 m).2 = .ok i32 ∧
      ((box.int32_t i32 m).2.jl_objects (box.int32_t i32 m).1).map
        (fun o => (o.type, o.type.nbits, o.type.is_signed)) =
        some (.jl_int32_type, 32, true)) ∧
    (unbox.int64_t (box.int64_t i64 m).1 (box.int64_t i64 m).2 = .ok i64 ∧
      ((box.int64_t i64 m).2.jl_objects (box.int64_t i64 m).1).map
        (fun o => (o.type, o.type.nbits, o.type.is_signed)) =
        some (.jl_int64_type, 64, true)) ∧
    (unbox.uint32_t (box.uint32_t u32 m).1 (box.uint32_t u32 m).2 = .ok u32 ∧
      ((box.uint32_t u32 m).2.jl_objects (box.uint32_t u32 m).1).map
        (fun o => (o.type, o.type.nbits, o.type.is_signed)) =
        some (.jl_uint32_type, 32, false)) ∧
    (unbox.uint64_t (box.uint64_t u64 m).1 (box.uint64_t u64 m).2 = .ok u64 ∧
      ((box.uint64_t u64 m).2.jl_objects (box.uint64_t u64 m).1).map
        (fun o => (o.type, o.type.nbits, o.type.is_signed)) =
        some (.jl_uint64_type, 64, false)) ∧
    (unbox.void_pointer (box.void_pointer p m).1 (box.void_pointer p m).2 = .ok p ∧
      ((box.void_pointer p m).2.jl_objects (box.void_pointer p m).1).map Boxed.type =
        some .jl_voidpointer_type) := by
  refine ⟨⟨?_, ?_⟩, ⟨?_, ?_⟩, ⟨?_, ?_⟩, ⟨?_, ?_⟩, ⟨?_, ?_⟩, ⟨?_, ?_⟩⟩
  · cases b <;>
      simp [unbox.bool, box.bool, jl_unbox_bool, jl_box_bool, Memory.jl_data_jl_alloc, Except.map]
  · simp [box.bool, jl_box_bool, Memory.jl_data_jl_alloc]
  · simp [unbox.int32_t, box.int32_t, jl_unbox_int32, jl_box_int32, Memory.jl_data_jl_alloc,
      Except.map, of_bits_signed_to_bits_32 i32 h32.1 h32.2]
  · simp [box.int32_t, jl_box_int32, Memory.jl_data_jl_alloc, HostType.nbits,
      HostType.is_signed]
  · simp [unbox.int64_t, box.int64_t, jl_unbox_int64, jl_box_int64, Memory.jl_data_jl_alloc,
      Except.map, of_bits_signed_to_bits_64 i64 h64.1 h64.2]
  · simp [box.int64_t, jl_box_int64, Memory.jl_data_jl_alloc, HostType.nbits,
      HostType.is_signed]
  · simp [unbox.uint32_t, box.uint32_t, jl_unbox_uint32, jl_box_uint32,
      Memory.jl_data_jl_alloc, Except.map, of_bits_unsigned_to_bits_32 u32 hu32.1 hu32.2]
  · simp [box.uint32_t, jl_box_uint32, Memory.jl_data_jl_alloc, HostType.nbits,
      HostType.is_signed]
  · simp [unbox.uint64_t, box.uint64_t, jl_unbox_uint64, jl_box_uint64,
      Memory.jl_data_jl_alloc, Except.map, of_bits_unsigned_to_bits_64 u64 hu64.1 hu64.2]
  · simp [box.uint64_t, jl_box_uint64, Memory.jl_data_jl_alloc, HostType.nbits,
      HostType.is_signed]
  · simp [unbox.void_pointer, box.void_pointer, jl_unbox_voidpointer, jl_box_voidpointer,
      Memory.jl_data_jl_alloc]
  · simp [box.void_pointer, jl_box_voidpointer, Memory.jl_data_jl_alloc]

theorem unbox_box_scalar_witness :
    ((-2 : Int) ^ 31 ≤ -1 ∧ (-1 : Int) < 2 ^ 31) ∧
    (0 ≤ ((2 : Int) ^ 64 - 1) ∧ ((2 : Int) ^ 64 - 1) < 2 ^ 64) ∧
    unbox.int32_t (box.int32_t (-1) Memory.init).1 (box.int32_t (-1) Memory.init).2 =
      .ok (-1) ∧
    unbox.uint64_t (box.uint64_t (2 ^ 64 - 1) Memory.init).1
      (box.uint64_t (2 ^ 64 - 1) Memory.init).2 = .ok (2 ^ 64 - 1) ∧
    unbox.bool (box.bool true Memory.init).1 (box.bool true Memory.init).2 = .ok true ∧
    unbox.void_pointer (box.void_pointer 0 Memory.init).1
      (box.void_pointer 0 Memory.init).2 = .ok 0 :=
  have h := unbox_box_scalar Memory.init true (-1) (-2 ^ 63) (2 ^ 32 - 1) (2 ^ 64 - 1) 0
    (by decide) (by decide) (by decide) (by decide)
  ⟨by decide, by decide, h.2.1.1, h.2.2.2.2.1.1, h.1.1, h.2.2.2.2.2.1⟩

/-! ## Theorems: finalizer and boxed pointers -/

theorem finalizer_eq (m : Memory) (v : Address) (b : Boxed) (h : m.jl_objects v = some b) :
    detail.finalizer v m =
      .ok ((if b.data ≠ nullptr then m.delete b.data else m).store_voidptr v nullptr) := by
  simp [detail.finalizer, unbox_wrapped_ptr, unbox.primary, Memory.jl_data, h, Except.map]

theorem Memory.store_voidptr_jl_objects (m : Memory) (v p : Address) (b : Boxed)
    (h : m.jl_objects v = some b) :
    (m.store_voidptr v p).jl_objects v = some ⟨b.type, p⟩ := by
  simp [Memory.store_voidptr, h]

/-- Claim C13. For every handle, `detail::finalizer<T>` reads the stored
address, calls `delete` on it exactly when it is non-null, and leaves the
stored address null; a second invocation on the same handle deletes nothing
and leaves the stored address null. -/
theorem finalizer_destroys_once (m : Memory) (v : Address) (b : Boxed)
    (h : m.jl_objects v = some b) :
    ∃ m1 m2, detail.finalizer v m = .ok m1 ∧
      m1.deleted = (if b.data ≠ nullptr then m.deleted ++ [b.data] else m.deleted) ∧
      (b.data ≠ nullptr → m1.cpp_objects b.data = none) ∧
      m1.jl_objects v = some ⟨b.type, nullptr⟩ ∧
      detail.finalizer v m1 = .ok m2 ∧
      m2.deleted = m1.deleted ∧ m2.cpp_objects = m1.cpp_objects ∧
      m2.jl_objects v = some ⟨b.type, nullptr⟩ := by
  have h1 : ((if b.data ≠ nullptr then m.delete b.data else m).store_voidptr v nullptr).jl_objects
      v = some ⟨b.type, nullptr⟩ := by
    split <;> simp [Memory.store_voidptr, Memory.delete, h]
  obtain ⟨m1, hm1, hj1⟩ : ∃ m1 : Memory,
      m1 = (if b.data ≠ nullptr then m.delete b.data else m).store_voidptr v nullptr ∧
      m1.jl_objects v = some ⟨b.type, nullptr⟩ := ⟨_, rfl, h1⟩
  have h2 : detail.finalizer v m1 = .ok (m1.store_voidptr v nullptr) := by
    rw [finalizer_eq m1 v _ hj1]
    simp
  refine ⟨m1, m1.store_voidptr v nullptr, hm1 ▸ finalizer_eq m v b h, ?_, ?_, hj1, h2, rfl, rfl,
    Memory.store_voidptr_jl_objects m1 v nullptr ⟨b.type, nullptr⟩ hj1⟩
  · rw [hm1]
    split <;> simp [Memory.store_voidptr, Memory.delete]
  · intro hb
    rw [hm1]
    simp [Memory.store_voidptr, Memory.delete, hb]

theorem finalizer_destroys_once_witness :
    (jl_box_voidpointer 77 Memory.init).2.jl_objects 1 = some ⟨.jl_voidpointer_type, 77⟩ ∧
    ∃ m1 m2, detail.finalizer 1 (jl_box_voidpointer 77 Memory.init).2 = .ok m1 ∧
      m1.deleted = [77] ∧
      m1.jl_objects 1 = some ⟨.jl_voidpointer_type, nullptr⟩ ∧
      detail.finalizer 1 m1 = .ok m2 ∧
      m2.deleted = [77] :=
  ⟨rfl,
    match finalizer_destroys_once (jl_box_voidpointer 77 Memory.init).2 1
      ⟨.jl_voidpointer_type, 77⟩ rfl with
    | ⟨m1, m2, h1, h2, _, h4, h5, h6, _, _⟩ =>
      ⟨m1, m2, h1, h2, h4, h5, h6.trans h2⟩⟩

/-! ## Theorems: conversion layer -/

theorem mapping_trait_ptr_const (U : CppType) :
    mapping_trait (.ptr (.const_ U)) = .WrappedPtrTrait := rfl

theorem mapping_trait_rref (W : CppType) : mapping_trait (.rref W) = .NoMappingTrait := by
  simp [mapping_trait, IsMirroredType, CppType.is_class]

/-- Claim C11, as amended. Round trip of the non-owning strategies: for
every `T` classified `NoMappingTrait` that is neither a reference type, nor
`void`, nor `jl_value_t* const`, and every value `x`, for every pointer type `U*` other than
`jl_value_t*` and every pointer type `const U*`, with every address `p` (null
included), for every reference type `V&` with every object address `a`, and
for `jl_value_t*` with every address `q`, `convert_to_julia` returns without
changing any state and `convert_to_cpp` of its result returns the value, the
pointer, a reference to the same address, and the pointer. For every `W` that
is neither a reference type nor `void`, the rvalue reference type `W&&` is
classified `NoMappingTrait` as well, and neither `convert_to_julia<W&&>` nor
`convert_to_cpp<W&&>` has an instantiation. -/
theorem convert_round_trip (jl : Julia) (s : State) (m : Memory) (T U V W : CppType)
    (x y : Native) (p q a : Address) (hT : MappingTrait T = some .NoMappingTrait)
    (hTr : T.is_reference = false) (hTv : T.is_void = false)
    (hTj : T.remove_const ≠ .ptr .jl_value_t) (hU : U ≠ .jl_value_t) (ha : a ≠ nullptr) :
    (convert_to_julia jl T x s m = (.ok (.same x), s, m) ∧
      convert_to_cpp T (.same x) m = .ok x) ∧
    (convert_to_julia jl (.ptr U) (.pointer p) s m = (.ok (.handle ⟨p⟩), s, m) ∧
      convert_to_cpp (.ptr U) (.handle ⟨p⟩) m = .ok (.pointer p)) ∧
    (convert_to_julia jl (.ptr (.const_ U)) (.pointer p) s m = (.ok (.handle ⟨p⟩), s, m) ∧
      convert_to_cpp (.ptr (.const_ U)) (.handle ⟨p⟩) m = .ok (.pointer p)) ∧
    (convert_to_julia jl (.lref V) (.reference a) s m = (.ok (.handle ⟨a⟩), s, m) ∧
      convert_to_cpp (.lref V) (.handle ⟨a⟩) m = .ok (.reference a)) ∧
    (convert_to_julia jl (.ptr .jl_value_t) (.pointer q) s m =
        (.ok (.same (.pointer q)), s, m) ∧
      convert_to_cpp (.ptr .jl_value_t) (.same (.pointer q)) m = .ok (.pointer q)) ∧
    (W.is_reference = false → W.is_void = false →
      MappingTrait (.rref W) = some .NoMappingTrait ∧
      convert_to_julia jl (.rref W) y s m = (.error .no_instantiation, s, m) ∧
      convert_to_cpp (.rref W) (.same y) m = .error .no_instantiation) := by
  simp only [MappingTrait_eq, Option.some.injEq] at hT
  have hUw : mapping_trait (.ptr U) = .WrappedPtrTrait := by
    cases U <;> first | rfl | exact absurd rfl hU
  have hTrv : T.is_rvalue_reference = false := by
    cases T <;> first | rfl | simp [CppType.is_reference] at hTr
  refine ⟨⟨?_, ?_⟩, ⟨?_, ?_⟩, ⟨?_, ?_⟩, ⟨?_, ?_⟩, ⟨?_, ?_⟩, fun _ _ => ⟨?_, ?_, ?_⟩⟩
  · cases T with
    | lref W => simp [mapping_trait] at hT
    | ptr W => cases W <;> simp [mapping_trait] at hT
    | _ => simp [convert_to_julia, hT, ConvertToJulia.no_mapping, hTv, hTrv, Except.map]
  · cases T with
    | lref W => simp [mapping_trait] at hT
    | ptr W => cases W <;> simp [mapping_trait] at hT
    | _ =>
      simp [convert_to_cpp, hT, ConvertToCpp.no_mapping, ConvertToCpp.no_mapping_class, hTv,
        hTrv, hTj]
  · simp [convert_to_julia, hUw, ConvertToJulia.pointer]
  · simp [convert_to_cpp, hUw, ConvertToCpp.pointer, extract_pointer]
  · simp [convert_to_julia, mapping_trait_ptr_const, ConvertToJulia.pointer]
  · simp [convert_to_cpp, mapping_trait_ptr_const, ConvertToCpp.pointer, extract_pointer]
  · simp [convert_to_julia, mapping_trait, ConvertToJulia.reference]
  · simp [convert_to_cpp, mapping_trait, ConvertToCpp.reference, extract_pointer, dereference,
      ha, Except.map]
  · simp [convert_to_julia, mapping_trait, ConvertToJulia.direct_pointer]
  · simp [convert_to_cpp, mapping_trait, ConvertToCpp.direct_pointer]
  · simp [MappingTrait_eq, mapping_trait_rref]
  · simp [convert_to_julia, mapping_trait_rref, ConvertToJulia.no_mapping,
      CppType.is_rvalue_reference, Except.map]
  · simp [convert_to_cpp, mapping_trait_rref, ConvertToCpp.no_mapping,
      CppType.is_rvalue_reference]

theorem convert_round_trip_witness :
    MappingTrait (.arith .int32_t) = some .NoMappingTrait ∧
    (CppType.arith .int32_t).is_reference = false ∧ (CppType.arith .int32_t).is_void = false ∧
    (CppType.arith .int32_t).remove_const ≠ .ptr .jl_value_t ∧
    CppType.record "Foo" ⟨false, false, false⟩ ≠ .jl_value_t ∧ (5 : Address) ≠ nullptr ∧
    convert_to_cpp (.arith .int32_t) (.same (.value (-1))) Memory.init = .ok (.value (-1)) ∧
    convert_to_cpp (.ptr (.record "Foo" ⟨false, false, false⟩)) (.handle ⟨nullptr⟩)
      Memory.init = .ok (.pointer nullptr) ∧
    convert_to_cpp (.lref (.record "Foo" ⟨false, false, false⟩)) (.handle ⟨5⟩)
      Memory.init = .ok (.reference 5) ∧
    convert_to_cpp (.ptr .jl_value_t) (.same (.pointer 9)) Memory.init = .ok (.pointer 9) :=
  have h := convert_round_trip sample_julia State.init Memory.init (.arith .int32_t)
    (.record "Foo" ⟨false, false, false⟩) (.record "Foo" ⟨false, false, false⟩)
    (.arith .int32_t) (.value (-1)) (.value 3) nullptr 9 5 (by decide) (by decide) (by decide)
    (by decide) (by decide) (by decide)
  ⟨by decide, by decide, by decide, by decide, by decide, by decide, h.1.2, h.2.1.2,
    h.2.2.2.1.2, h.2.2.2.2.1.2⟩

/-- Claim C11, counterexample. The rvalue reference `int32_t&&` is classified
`NoMappingTrait`, the direct strategy, and has no round trip:
`convert_to_julia<int32_t&&>` and `convert_to_cpp<int32_t&&>` have no
instantiation, for a value and for a reference to the object at address 1.
Likewise `jl_value_t* const` is classified `NoMappingTrait`, and
`convert_to_cpp<jl_value_t* const>` of what `convert_to_julia` returned for
the pointer 9 has no instantiation. -/
theorem convert_rvalue_reference_no_instantiation :
    MappingTrait (.rref (.arith .int32_t)) = some .NoMappingTrait ∧
    convert_to_julia sample_julia (.rref (.arith .int32_t)) (.value 5) State.init Memory.init =
      (.error .no_instantiation, State.init, Memory.init) ∧
    convert_to_julia sample_julia (.rref (.arith .int32_t)) (.reference 1) State.init
        Memory.init =
      (.error .no_instantiation, State.init, Memory.init) ∧
    convert_to_cpp (.rref (.arith .int32_t)) (.same (.value 5)) Memory.init =
      .error .no_instantiation ∧
    convert_to_cpp (.rref (.arith .int32_t)) (.same (.reference 1)) Memory.init =
      .error .no_instantiation ∧
    MappingTrait (.const_ (.ptr .jl_value_t)) = some .NoMappingTrait ∧
    convert_to_julia sample_julia (.const_ (.ptr .jl_value_t)) (.pointer 9) State.init
        Memory.init =
      (.ok (.same (.pointer 9)), State.init, Memory.init) ∧
    convert_to_cpp (.const_ (.ptr .jl_value_t)) (.same (.pointer 9)) Memory.init =
      .error .no_instantiation :=
  ⟨by decide, rfl, rfl, rfl, rfl, by decide, rfl, rfl⟩

theorem convert_to_cpp_null_handle (T : CppType) (m : Memory) :
    convert_to_cpp (.lref T) (.handle ⟨nullptr⟩) m = .error .undefined_behavior ∧
    (mapping_trait T = .CxxWrappedTrait →
      convert_to_cpp T (.handle ⟨nullptr⟩) m = .error .undefined_behavior) := by
  constructor
  · simp [convert_to_cpp, mapping_trait, ConvertToCpp.reference, extract_pointer, dereference,
      Except.map]
  · intro h
    cases T with
    | lref W => simp [mapping_trait] at h
    | ptr W => cases W <;> simp [mapping_trait] at h
    | _ =>
      simp [convert_to_cpp, h, ConvertToCpp.wrapped, extract_pointer, Memory.copy_of,
        dereference, Except.map]

/-- Claim C12, the code at the failing input. For the class `Foo` classified
`CxxWrappedTrait`, `convert_to_cpp<Foo&>` and `convert_to_cpp<Foo>` applied to
a handle whose stored address is null read through the null pointer, which is
undefined behaviour; no exception is thrown. On the same handle
`detail::JuliaUnpacker<Foo&>` and `detail::JuliaUnpacker<Foo>` throw
"C++ object was deleted". -/
theorem convert_to_cpp_null_handle_undefined :
    MappingTrait (.record "Foo" ⟨false, false, false⟩) = some .CxxWrappedTrait ∧
    convert_to_cpp (.lref (.record "Foo" ⟨false, false, false⟩)) (.handle ⟨nullptr⟩)
      Memory.init = .error .undefined_behavior ∧
    convert_to_cpp (.record "Foo" ⟨false, false, false⟩) (.handle ⟨nullptr⟩)
      Memory.init = .error .undefined_behavior ∧
    detail.JuliaUnpacker (.lref (.record "Foo" ⟨false, false, false⟩)) ⟨nullptr⟩ Memory.init =
      .error (.exception ⟨"C++ object was deleted"⟩) ∧
    detail.JuliaUnpacker (.record "Foo" ⟨false, false, false⟩) ⟨nullptr⟩ Memory.init =
      .error (.exception ⟨"C++ object was deleted"⟩) :=
  ⟨by decide, rfl, rfl, rfl, rfl⟩

/-! ## Theorems: boxed pointers, ownership and GC roots -/

theorem boxed_cpp_pointer_ok (jl : Julia) (T : CppType) (cpp_ptr dt : Address) (af : Bool)
    (m : Memory) (h1 : jl.jl_datatype_nfields dt = 1)
    (h2 : jl.jl_field_type dt 0 = jl.jl_voidpointer_type) :
    ∃ m1, boxed_cpp_pointer jl T cpp_ptr dt af m = .ok (m.jl_next + 1, m1) ∧
      m1.gc_stack = m.gc_stack ∧
      m1.gc_safepoints = m.gc_safepoints ++
        ([nullptr, nullptr, nullptr] ++ m.gc_stack.flatten) ::
        ([m.jl_next, nullptr, nullptr] ++ m.gc_stack.flatten) ::
        (if af then
          [[m.jl_next, m.jl_next + 1, nullptr] ++ m.gc_stack.flatten,
            [m.jl_next, m.jl_next + 1, m.jl_next + 2] ++ m.gc_stack.flatten]
        else []) ∧
      m1.finalizers =
        (if af then m.finalizers ++ [(m.jl_next + 1, m.jl_next + 2)] else m.finalizers) ∧
      m1.jl_objects (m.jl_next + 1) = some ⟨.datatype dt, cpp_ptr⟩ ∧
      (af = true → m1.jl_objects (m.jl_next + 2) = some ⟨.jl_voidpointer_type, jl.finalizer T⟩) ∧
      m1.jl_objects m.jl_next = some ⟨.jl_voidpointer_type, cpp_ptr⟩ ∧
      m1.cpp_objects = m.cpp_objects ∧ m1.cpp_next = m.cpp_next ∧ m1.deleted = m.deleted := by
  cases af <;>
    simp [boxed_cpp_pointer, h1, h2, jl_box_voidpointer, jl_new_struct, jl_gc_add_finalizer,
      Memory.jl_alloc, Memory.jl_data, Memory.JL_GC_PUSH3, Memory.JL_GC_POP,
      Memory.assign_rooted]
  intro hnext
  have hne : ∀ n : Nat, n ≠ n + 1 + 1 := fun n => by omega
  exact absurd hnext (hne m.jl_next)

/-- Claim C18. For a datatype that passes the two `assert`s,
`boxed_cpp_pointer` returns, for `add_finalizer` true and false alike, with
the GC stack it was entered with. The frame of `void_ptr`, `result` and
`finalizer` is on the stack at the first allocation; `void_ptr` is rooted at
the allocation of `result`; `void_ptr` and `result` are rooted at the
allocation of `finalizer`, and all three at `jl_gc_add_finalizer`. -/
theorem boxed_cpp_pointer_gc_roots (jl : Julia) (T : CppType) (cpp_ptr dt : Address)
    (add_finalizer : Bool) (m : Memory) (h1 : jl.jl_datatype_nfields dt = 1)
    (h2 : jl.jl_field_type dt 0 = jl.jl_voidpointer_type) :
    ∃ result m1, boxed_cpp_pointer jl T cpp_ptr dt add_finalizer m = .ok (result, m1) ∧
      m1.gc_stack = m.gc_stack ∧
      m1.jl_objects m.jl_next = some ⟨.jl_voidpointer_type, cpp_ptr⟩ ∧
      result = m.jl_next + 1 ∧
      m1.gc_safepoints = m.gc_safepoints ++
        ([nullptr, nullptr, nullptr] ++ m.gc_stack.flatten) ::
        ([m.jl_next, nullptr, nullptr] ++ m.gc_stack.flatten) ::
        (if add_finalizer then
          [[m.jl_next, result, nullptr] ++ m.gc_stack.flatten,
            [m.jl_next, result, m.jl_next + 2] ++ m.gc_stack.flatten]
        else []) := by
  obtain ⟨m1, h, hs, hp, _, _, _, hv, _⟩ :=
    boxed_cpp_pointer_ok jl T cpp_ptr dt add_finalizer m h1 h2
  exact ⟨_, m1, h, hs, hv, rfl, hp⟩

theorem boxed_cpp_pointer_gc_roots_witness :
    sample_julia.jl_datatype_nfields 7 = 1 ∧
    sample_julia.jl_field_type 7 0 = sample_julia.jl_voidpointer_type ∧
    ∃ result m1,
      boxed_cpp_pointer sample_julia (.record "Foo" ⟨false, false, false⟩) 77 7 true
        (Memory.init.JL_GC_PUSH3 40 41 42) = .ok (result, m1) ∧
      m1.gc_stack = [[40, 41, 42]] ∧
      m1.gc_safepoints =
        [[0, 0, 0, 40, 41, 42], [1, 0, 0, 40, 41, 42], [1, 2, 0, 40, 41, 42],
          [1, 2, 3, 40, 41, 42]] :=
  ⟨rfl, rfl,
    match boxed_cpp_pointer_gc_roots sample_julia (.record "Foo" ⟨false, false, false⟩) 77 7
      true (Memory.init.JL_GC_PUSH3 40 41 42) rfl rfl with
    | ⟨result, m1, h, hs, _, hr, hp⟩ => ⟨result, m1, h, hs, by rw [hp, hr]; rfl⟩⟩

theorem boxed_cpp_pointer_false_finalizers (jl : Julia) (T : CppType) (cpp_ptr dt : Address)
    (m : Memory) (r : Address × Memory)
    (h : boxed_cpp_pointer jl T cpp_ptr dt false m = .ok r) :
    r.2.finalizers = m.finalizers := by
  unfold boxed_cpp_pointer at h
  split at h
  · cases h
  · split at h
    · cases h
    · simp [jl_box_voidpointer, jl_new_struct, Memory.jl_alloc, Memory.jl_data,
        Memory.JL_GC_PUSH3, Memory.JL_GC_POP, Memory.assign_rooted] at h
      rw [← h]

theorem box_wrapped_finalizers (jl : Julia) (CppT : CppType) (x : Native) (s : State)
    (m : Memory) : (box.wrapped jl CppT x s m).2.2.finalizers = m.finalizers := by
  unfold box.wrapped
  split
  · rfl
  · split
    · rfl
    · split
      · split
        · rfl
        · rename_i r hr
          exact boxed_cpp_pointer_false_finalizers jl _ _ _ m r hr
      · split
        · rfl
        · rename_i r hr
          exact boxed_cpp_pointer_false_finalizers jl _ _ _ m r hr
      · rfl

theorem julia_owned_ok (jl : Julia) (T : CppType) (cpp_ptr dt : Address) (s s1 : State)
    (m : Memory) (hf : T.is_fundamental = false) (hjt : julia_type jl T s = (.ok dt, s1))
    (h1 : jl.jl_datatype_nfields dt = 1)
    (h2 : jl.jl_field_type dt 0 = jl.jl_voidpointer_type) :
    ∃ m1, julia_owned jl T cpp_ptr s m = (.ok (m.jl_next + 1), s1, m1) ∧
      m1.finalizers = m.finalizers ++ [(m.jl_next + 1, m.jl_next + 2)] ∧
      m1.jl_objects (m.jl_next + 1) = some ⟨.datatype dt, cpp_ptr⟩ ∧
      m1.jl_objects (m.jl_next + 2) = some ⟨.jl_voidpointer_type, jl.finalizer T⟩ ∧
      m1.gc_stack = m.gc_stack ∧
      m1.cpp_objects = m.cpp_objects ∧ m1.cpp_next = m.cpp_next ∧ m1.deleted = m.deleted := by
  obtain ⟨m1, h, hs, _, hfin, ho, hfo, _, hc, hcn, hdel⟩ :=
    boxed_cpp_pointer_ok jl T cpp_ptr dt true m h1 h2
  refine ⟨m1, ?_, by simpa using hfin, ho, hfo rfl, hs, hc, hcn, hdel⟩
  simp [julia_owned, hf, hjt, h]

/-- Claim C14. `boxed_cpp_pointer` registers a finalizer exactly when
`add_finalizer` is true; `julia_owned` passes true and registers the
finalizer of `T` for the handle it returns; the two `box` overloads for
wrapped values and pointers register none, whatever their outcome; and
`convert_to_julia` of a reference or of a pointer returns a `WrappedCppPtr`
and changes no memory. -/
theorem finalizer_only_by_julia_owned (jl : Julia) (T CppT U V : CppType)
    (cpp_ptr dt p a : Address) (add_finalizer : Bool) (x : Native) (s s1 : State) (m : Memory)
    (h1 : jl.jl_datatype_nfields dt = 1)
    (h2 : jl.jl_field_type dt 0 = jl.jl_voidpointer_type)
    (hf : T.is_fundamental = false) (hjt : julia_type jl T s = (.ok dt, s1))
    (hU : U ≠ .jl_value_t) :
    (∃ r m1, boxed_cpp_pointer jl T cpp_ptr dt add_finalizer m = .ok (r, m1) ∧
      m1.finalizers =
        (if add_finalizer then m.finalizers ++ [(r, m.jl_next + 2)] else m.finalizers)) ∧
    (∃ r m1, julia_owned jl T cpp_ptr s m = (.ok r, s1, m1) ∧
      m1.finalizers = m.finalizers ++ [(r, m.jl_next + 2)] ∧
      m1.jl_objects (m.jl_next + 2) = some ⟨.jl_voidpointer_type, jl.finalizer T⟩) ∧
    (box.wrapped jl CppT x s m).2.2.finalizers = m.finalizers ∧
    convert_to_julia jl (.lref V) (.reference a) s m = (.ok (.handle ⟨a⟩), s, m) ∧
    convert_to_julia jl (.ptr U) (.pointer p) s m = (.ok (.handle ⟨p⟩), s, m) := by
  refine ⟨?_, ?_, box_wrapped_finalizers jl CppT x s m, ?_, ?_⟩
  · obtain ⟨m1, h, _, _, hfin, _⟩ :=
      boxed_cpp_pointer_ok jl T cpp_ptr dt add_finalizer m h1 h2
    exact ⟨_, m1, h, hfin⟩
  · obtain ⟨m1, h, hfin, _, hfo, _⟩ := julia_owned_ok jl T cpp_ptr dt s s1 m hf hjt h1 h2
    exact ⟨_, m1, h, hfin, hfo⟩
  · simp [convert_to_julia, mapping_trait, ConvertToJulia.reference]
  · have hUw : mapping_trait (.ptr U) = .WrappedPtrTrait := by
      cases U <;> first | rfl | exact absurd rfl hU
    simp [convert_to_julia, hUw, ConvertToJulia.pointer]

theorem finalizer_only_by_julia_owned_witness :
    sample_julia.jl_datatype_nfields 7 = 1 ∧
    sample_julia.jl_field_type 7 0 = sample_julia.jl_voidpointer_type ∧
    (CppType.record "Foo" ⟨false, false, false⟩).is_fundamental = false ∧
    julia_type sample_julia (.record "Foo" ⟨false, false, false⟩)
        (set_julia_type sample_julia (.record "Foo" ⟨false, false, false⟩) 7 State.init).2 =
      (.ok 7,
        (set_julia_type sample_julia (.record "Foo" ⟨false, false, false⟩) 7 State.init).2) ∧
    CppType.record "Foo" ⟨false, false, false⟩ ≠ .jl_value_t ∧
    (∃ r m1,
      julia_owned sample_julia (.record "Foo" ⟨false, false, false⟩) 77
          (set_julia_type sample_julia (.record "Foo" ⟨false, false, false⟩) 7 State.init).2
          Memory.init =
        (.ok r,
          (set_julia_type sample_julia (.record "Foo" ⟨false, false, false⟩) 7 State.init).2,
          m1) ∧
      m1.finalizers = [(r, 3)]) ∧
    (box.wrapped sample_julia (.record "Foo" ⟨false, false, false⟩) (.reference 77)
        (set_julia_type sample_julia (.record "Foo" ⟨false, false, false⟩) 7 State.init).2
        Memory.init).2.2.finalizers = [] :=
  have h := finalizer_only_by_julia_owned sample_julia (.record "Foo" ⟨false, false, false⟩)
    (.record "Foo" ⟨false, false, false⟩) (.record "Foo" ⟨false, false, false⟩)
    (.record "Foo" ⟨false, false, false⟩) 77 7 77 77 true (.reference 77)
    (set_julia_type sample_julia (.record "Foo" ⟨false, false, false⟩) 7 State.init).2
    (set_julia_type sample_julia (.record "Foo" ⟨false, false, false⟩) 7 State.init).2
    Memory.init rfl rfl (by decide) rfl (by decide)
  ⟨rfl, rfl, by decide, rfl, by decide,
    match h.2.1 with
    | ⟨r, m1, h3, h4, _⟩ => ⟨r, m1, h3, h4⟩,
    h.2.2.1⟩

theorem CxxWrappedTrait_class (T : CppType) (h : mapping_trait T = .CxxWrappedTrait) :
    T.is_class = true ∧ T.is_fundamental = false ∧ NeedsStorage T = false ∧
    static_julia_type T = .WrappedCppPtr := by
  have hs : static_julia_type T = .WrappedCppPtr := by
    unfold static_julia_type
    rw [h]
    cases T <;> rfl
  refine ⟨?_, ?_, ?_, hs⟩
  · cases T with
    | lref W => simp [mapping_trait] at h
    | ptr W => cases W <;> simp [mapping_trait] at h
    | _ => simp_all [mapping_trait, IsMirroredType, CppType.is_class]
  · cases T with
    | lref W => rfl
    | ptr W => rfl
    | const_ W =>
      have hc : (CppType.const_ W).is_class = true := by
        simp_all [mapping_trait, IsMirroredType]
      have key : ∀ X : CppType, X.is_class = true → X.is_fundamental = false := by
        intro X
        induction X with
        | const_ Y ih => simpa [CppType.is_class, CppType.is_fundamental] using ih
        | _ => simp [CppType.is_class, CppType.is_fundamental]
      exact key _ hc
    | _ => simp_all [mapping_trait, IsMirroredType, CppType.is_class, CppType.is_fundamental]
  · cases T with
    | lref W => simp [mapping_trait] at h
    | ptr W => cases W <;> simp [mapping_trait] at h
    | _ => rfl

/-- Claim C15. For every `T` classified `CxxWrappedTrait` whose registry slot
holds the non-null descriptor `d` (a datatype with one `Ptr{Cvoid}` field), and
every object `x` of `T` living at address `a`: `convert_to_julia<T>(x)` places
a copy of `x` at the address handed out by `new`, which differs from `a`,
leaves `x` as it was, and returns a boxed object of datatype `d`, which is
what `julia_type<T>()` returns, holding the address of the copy, with the
boxed address of `detail::finalizer<T>` registered as its finalizer. -/
theorem convert_to_julia_by_value (jl : Julia) (T : CppType) (d a : Address) (x : Int)
    (s : State) (m : Memory) (hT : MappingTrait T = some .CxxWrappedTrait)
    (hd : (s.m_dt T).get_dt = d) (hn : d ≠ nullptr)
    (h1 : jl.jl_datatype_nfields d = 1)
    (h2 : jl.jl_field_type d 0 = jl.jl_voidpointer_type)
    (ha : a ≠ nullptr) (hx : m.cpp_objects a = some x)
    (hfree : m.cpp_objects m.cpp_next = none) :
    ∃ r f m1, convert_to_julia jl T (.reference a) s m = (.ok (.boxed r), s, m1) ∧
      julia_type jl T s = (.ok d, s) ∧
      m.cpp_next ≠ a ∧
      m1.cpp_objects m.cpp_next = some x ∧
      m1.cpp_objects a = some x ∧
      m1.jl_objects r = some ⟨.datatype d, m.cpp_next⟩ ∧
      (r, f) ∈ m1.finalizers ∧
      m1.jl_objects f = some ⟨.jl_voidpointer_type, jl.finalizer T⟩ := by
  simp only [MappingTrait_eq, Option.some.injEq] at hT
  obtain ⟨hc, hf, hN, hs⟩ := CxxWrappedTrait_class T hT
  have hjt := julia_type_registered jl T d s hN hn hd
  have hne : m.cpp_next ≠ a := by
    intro e
    rw [e, hx] at hfree
    cases hfree
  obtain ⟨m1, h, hfin, ho, hfo, _, hcpp, _, _⟩ :=
    julia_owned_ok jl T (m.new_copy x).1 d s s (m.new_copy x).2 hf hjt h1 h2
  refine ⟨_, _, m1, ?_, hjt, hne, ?_, ?_, ho, ?_, hfo⟩
  · have hcopy : m.copy_of a = .ok x := by
      simp [Memory.copy_of, dereference, ha, hx]
    cases T with
    | lref W => simp [mapping_trait] at hT
    | ptr W => cases W <;> simp [mapping_trait] at hT
    | _ => simp [convert_to_julia, hT, ConvertToJulia.primary, hs, hc, hcopy, h, Except.map]
  · rw [hcpp]
    simp [Memory.new_copy]
  · rw [hcpp]
    simp [Memory.new_copy, hx, Ne.symm hne]
  · rw [hfin]
    simp

theorem convert_to_julia_by_value_witness :
    MappingTrait (.record "Foo" ⟨false, false, false⟩) = some .CxxWrappedTrait ∧
    (((set_julia_type sample_julia (.record "Foo" ⟨false, false, false⟩) 7 State.init).2).m_dt
      (.record "Foo" ⟨false, false, false⟩)).get_dt = 7 ∧
    (7 : Address) ≠ nullptr ∧
    sample_julia.jl_datatype_nfields 7 = 1 ∧
    sample_julia.jl_field_type 7 0 = sample_julia.jl_voidpointer_type ∧
    (1 : Address) ≠ nullptr ∧
    (Memory.init.new_copy 42).2.cpp_objects 1 = some 42 ∧
    (Memory.init.new_copy 42).2.cpp_objects (Memory.init.new_copy 42).2.cpp_next = none ∧
    ∃ r f m1,
      convert_to_julia sample_julia (.record "Foo" ⟨false, false, false⟩) (.reference 1)
          (set_julia_type sample_julia (.record "Foo" ⟨false, false, false⟩) 7 State.init).2
          (Memory.init.new_copy 42).2 =
        (.ok (.boxed r),
          (set_julia_type sample_julia (.record "Foo" ⟨false, false, false⟩) 7 State.init).2,
          m1) ∧
      m1.cpp_objects 2 = some 42 ∧ m1.cpp_objects 1 = some 42 ∧
      m1.jl_objects r = some ⟨.datatype 7, 2⟩ ∧
      (r, f) ∈ m1.finalizers ∧
      m1.jl_objects f = some ⟨.jl_voidpointer_type, 501⟩ :=
  ⟨by decide, rfl, by decide, rfl, rfl, by decide, rfl, rfl,
    match convert_to_julia_by_value sample_julia (.record "Foo" ⟨false, false, false⟩) 7 1 42
      (set_julia_type sample_julia (.record "Foo" ⟨false, false, false⟩) 7 State.init).2
      (Memory.init.new_copy 42).2 (by decide) rfl (by decide) rfl rfl (by decide) rfl rfl with
    | ⟨r, f, m1, h, _, _, hc, hx, ho, hfin, hfo⟩ => ⟨r, f, m1, h, hc, hx, ho, hfin, hfo⟩⟩

/-! ## Theorems: unpacking and error messages -/

theorem remove_const_remove_pointer (T : CppType) (h : T.is_pointer = false) :
    T.remove_const.remove_pointer = T.remove_const := by
  induction T with
  | const_ T ih => exact ih h
  | ptr T => simp [CppType.is_pointer] at h
  | _ => rfl

theorem remove_const_remove_const (T : CppType) :
    T.remove_const.remove_const = T.remove_const := by
  induction T with
  | const_ T ih => exact ih
  | _ => rfl

theorem remove_const_is_const (T : CppType) : T.remove_const.is_const = false := by
  induction T with
  | const_ T ih => exact ih
  | _ => rfl

theorem remove_const_is_void (T : CppType) : T.remove_const.is_void = T.is_void := by
  induction T with
  | const_ T ih => exact ih
  | _ => rfl

theorem stripped_cpp_t_eq (CppT : CppType) (hp : CppT.remove_reference.is_pointer = false) :
    detail.JuliaUnpacker.stripped_cpp_t CppT = CppT.remove_reference.remove_const := by
  unfold detail.JuliaUnpacker.stripped_cpp_t remove_const_ref
  rw [remove_const_remove_pointer _ hp, remove_const_remove_const]

theorem DoUnpack_returns (CppT : CppType) (hr : CppT.is_rvalue_reference = false)
    (hv : CppT.remove_reference.is_void = false)
    (hp : CppT.remove_reference.is_pointer = false) :
    detail.DoUnpack.returns CppT (detail.JuliaUnpacker.stripped_cpp_t CppT) = true := by
  rw [stripped_cpp_t_eq CppT hp]
  unfold detail.DoUnpack.returns
  rw [remove_const_is_void, hv]
  cases CppT with
  | rref W => simp [CppType.is_rvalue_reference] at hr
  | lref W =>
    simp [CppType.remove_reference, remove_const_remove_const, remove_const_is_const]
  | _ => simp [CppType.remove_reference, remove_const_remove_const]

theorem JuliaUnpacker_primary (CppT : CppType) (h : WrappedCppPtr) (m : Memory)
    (hr : CppT.is_rvalue_reference = false) (hv : CppT.remove_reference.is_void = false)
    (hp : CppT.remove_reference.is_pointer = false) :
    detail.JuliaUnpacker CppT h m =
      if h.voidptr = nullptr then .error (.exception ⟨"C++ object was deleted"⟩)
      else if CppT.is_reference then (dereference h.voidptr).map .reference
      else (m.copy_of h.voidptr).map .value := by
  have hret := DoUnpack_returns CppT hr hv hp
  cases CppT with
  | rref W => simp [CppType.is_rvalue_reference] at hr
  | ptr W => simp [CppType.remove_reference, CppType.is_pointer] at hp
  | _ => simp [detail.JuliaUnpacker, detail.DoUnpack, hret]

theorem JuliaUnpacker_rvalue_pointer (U : CppType) (h : WrappedCppPtr) (m : Memory) :
    detail.DoUnpack (.rref (.ptr U)) (detail.JuliaUnpacker.stripped_cpp_t (.rref (.ptr U)))
        h.voidptr m = .ok (.pointer h.voidptr) ∧
    detail.JuliaUnpacker (.rref (.ptr U)) h m = .error .undefined_behavior :=
  ⟨rfl, rfl⟩

/-- Claim C19, as amended. `detail::JuliaUnpacker<CppT>` applied to a handle:
when `CppT` is `T`, `const T`, `T&` or `const T&` for a `T` that is neither a
pointer type nor `void`, it throws "C++ object was deleted" if and only if the stored
address is null, and for a non-null address it returns a reference to that
address when `CppT` is a reference type and a copy of the object living there
when it is not; when `CppT` is `U*` it returns the stored address, null or
not; when `CppT` is `W&&` for a `W` that is neither a reference type, nor
`void`, nor a pointer type, it has no instantiation. -/
theorem JuliaUnpacker_null_check (CppT U : CppType) (h : WrappedCppPtr) (m : Memory) (x : Int)
    (hr : CppT.is_rvalue_reference = false) (hv : CppT.remove_reference.is_void = false)
    (hp : CppT.remove_reference.is_pointer = false) :
    (detail.JuliaUnpacker CppT h m = .error (.exception ⟨"C++ object was deleted"⟩) ↔
      h.voidptr = nullptr) ∧
    (h.voidptr ≠ nullptr → CppT.is_reference = true →
      detail.JuliaUnpacker CppT h m = .ok (.reference h.voidptr)) ∧
    (h.voidptr ≠ nullptr → CppT.is_reference = false → m.cpp_objects h.voidptr = some x →
      detail.JuliaUnpacker CppT h m = .ok (.value x)) ∧
    detail.JuliaUnpacker (.ptr U) h m = .ok (.pointer h.voidptr) ∧
    (∀ W : CppType, W.is_reference = false → W.is_void = false → W.is_pointer = false →
      detail.JuliaUnpacker (.rref W) h m = .error .no_instantiation) := by
  have hdef := JuliaUnpacker_primary CppT h m hr hv hp
  refine ⟨?_, ?_, ?_, rfl, ?_⟩
  · rw [hdef]
    constructor
    · intro he
      by_contra hne
      rw [if_neg hne] at he
      split at he
      · simp [dereference, hne, Except.map] at he
      · simp only [Memory.copy_of, dereference, hne, if_false] at he
        split at he <;> simp [Except.map] at he
    · intro he
      rw [if_pos he]
  · intro hne href
    rw [hdef, if_neg hne, if_pos href]
    simp [dereference, hne, Except.map]
  · intro hne hval hx
    rw [hdef, if_neg hne]
    simp [hval, Memory.copy_of, dereference, hne, hx, Except.map]
  · intro W _ _ hW
    cases W with
    | ptr X => simp [CppType.is_pointer] at hW
    | _ => simp [detail.JuliaUnpacker, detail.DoUnpack, detail.DoUnpack.returns]

theorem JuliaUnpacker_null_check_witness :
    (CppType.lref (.record "Foo" ⟨false, false, false⟩)).is_rvalue_reference = false ∧
    (CppType.lref (.record "Foo" ⟨false, false, false⟩)).remove_reference.is_void = false ∧
    (CppType.lref (.record "Foo" ⟨false, false, false⟩)).remove_reference.is_pointer = false ∧
    (detail.JuliaUnpacker (.lref (.record "Foo" ⟨false, false, false⟩)) ⟨nullptr⟩ Memory.init =
        .error (.exception ⟨"C++ object was deleted"⟩) ↔
      (WrappedCppPtr.mk nullptr).voidptr = nullptr) ∧
    detail.JuliaUnpacker (.ptr (.record "Foo" ⟨false, false, false⟩)) ⟨nullptr⟩ Memory.init =
      .ok (.pointer nullptr) ∧
    detail.JuliaUnpacker (.rref (.record "Foo" ⟨false, false, false⟩)) ⟨nullptr⟩ Memory.init = .error .no_instantiation :=
  have h := JuliaUnpacker_null_check (.lref (.record "Foo" ⟨false, false, false⟩))
    (.record "Foo" ⟨false, false, false⟩) ⟨nullptr⟩ Memory.init 0
    (by decide) (by decide) (by decide)
  ⟨by decide, by decide, by decide, h.1, h.2.2.2.1, h.2.2.2.2 (.record "Foo" ⟨false, false, false⟩) (by decide) (by decide) (by decide)⟩

/-- Claim C19, counterexample. `Foo&&` is a reference type and
`detail::JuliaUnpacker<Foo&&>` has no instantiation, for the null handle and
for a handle to the object 42 at address 1: it neither throws
"C++ object was deleted" nor yields the object. For the pointer type `Foo*&&`
and a handle to address 1, `detail::DoUnpack<Foo*&&>` returns the address but
`detail::JuliaUnpacker<Foo*&&>` does not: its result is a reference to a
temporary, undefined when read. -/
theorem JuliaUnpacker_rvalue_reference :
    (CppType.rref (.record "Foo" ⟨false, false, false⟩)).is_reference = true ∧
    detail.JuliaUnpacker (.rref (.record "Foo" ⟨false, false, false⟩)) ⟨nullptr⟩ Memory.init = .error .no_instantiation ∧
    (Memory.init.new_copy 42).2.cpp_objects 1 = some 42 ∧
    detail.JuliaUnpacker (.rref (.record "Foo" ⟨false, false, false⟩)) ⟨1⟩ (Memory.init.new_copy 42).2 =
      .error .no_instantiation ∧
    detail.DoUnpack (.rref (.ptr (.record "Foo" ⟨false, false, false⟩))) (.record "Foo" ⟨false, false, false⟩) 1 (Memory.init.new_copy 42).2 = .ok (.pointer 1) ∧
    detail.JuliaUnpacker (.rref (.ptr (.record "Foo" ⟨false, false, false⟩))) ⟨1⟩ (Memory.init.new_copy 42).2 =
      .error .undefined_behavior :=
  ⟨rfl, rfl, rfl, rfl, rfl, rfl⟩

/-- Claim C17, as amended. The not-registered error of `julia_type<T>()` and
the already-registered error of `set_julia_type<T>()` carry the name of `T`
and their condition: the messages are "Type ", the name, and
" has no Julia wrapper" or " already had a mapped type set". The error raised
when unpacking a null handle carries the condition only: its message is
"C++ object was deleted" for every type `CppT` the unpacker checks the
address for, which are `T`, `const T`, `T&` and `const T&` with `T` neither a
pointer type nor `void`. -/
theorem error_messages (jl : Julia) (T CppT : CppType) (d : Address) (s1 s2 : State)
    (m : Memory) (hT : NeedsStorage T = false) (h1 : (s1.m_dt T).get_dt = nullptr)
    (h2 : (s2.m_dt T).get_dt ≠ nullptr) (hr : CppT.is_rvalue_reference = false)
    (hv : CppT.remove_reference.is_void = false)
    (hp : CppT.remove_reference.is_pointer = false) :
    (julia_type jl T s1 =
        (.error ⟨"Type " ++ jl.typeid_name T ++ " has no Julia wrapper"⟩, s1) ∧
      (jl.typeid_name T).data <:+:
        ("Type " ++ jl.typeid_name T ++ " has no Julia wrapper").data ∧
      " has no Julia wrapper".data <:+:
        ("Type " ++ jl.typeid_name T ++ " has no Julia wrapper").data) ∧
    (set_julia_type jl T d s2 =
        (.error ⟨"Type " ++ jl.typeid_name T ++ " already had a mapped type set"⟩, s2) ∧
      (jl.typeid_name T).data <:+:
        ("Type " ++ jl.typeid_name T ++ " already had a mapped type set").data ∧
      " already had a mapped type set".data <:+:
        ("Type " ++ jl.typeid_name T ++ " already had a mapped type set").data) ∧
    detail.JuliaUnpacker CppT ⟨nullptr⟩ m =
      .error (.exception ⟨"C++ object was deleted"⟩) := by
  refine ⟨⟨?_, ?_, ?_⟩, ⟨?_, ?_, ?_⟩, ?_⟩
  · rw [julia_type_of_not_NeedsStorage jl s1 T hT]
    simp [dynamic_type_mapping.primary_julia_type, h1]
  · exact ⟨"Type ".data, " has no Julia wrapper".data, by simp [String.data_append]⟩
  · exact ⟨("Type " ++ jl.typeid_name T).data, [], by simp [String.data_append]⟩
  · simp [set_julia_type, dynamic_type_mapping.set_julia_type, h2]
  · exact ⟨"Type ".data, " already had a mapped type set".data, by simp [String.data_append]⟩
  · exact ⟨("Type " ++ jl.typeid_name T).data, [], by simp [String.data_append]⟩
  · rw [JuliaUnpacker_primary CppT _ m hr hv hp]
    simp

theorem error_messages_witness :
    NeedsStorage (.record "Foo" ⟨false, false, false⟩) = false ∧
    (State.init.m_dt (.record "Foo" ⟨false, false, false⟩)).get_dt = nullptr ∧
    ((set_julia_type sample_julia (.record "Foo" ⟨false, false, false⟩) 7 State.init).2.m_dt
      (.record "Foo" ⟨false, false, false⟩)).get_dt ≠ nullptr ∧
    (CppType.lref (.record "Foo" ⟨false, false, false⟩)).is_rvalue_reference = false ∧
    (CppType.lref (.record "Foo" ⟨false, false, false⟩)).remove_reference.is_void = false ∧
    (CppType.lref (.record "Foo" ⟨false, false, false⟩)).remove_reference.is_pointer = false ∧
    julia_type sample_julia (.record "Foo" ⟨false, false, false⟩) State.init =
      (.error ⟨"Type Foo has no Julia wrapper"⟩, State.init) ∧
    set_julia_type sample_julia (.record "Foo" ⟨false, false, false⟩) 8
        (set_julia_type sample_julia (.record "Foo" ⟨false, false, false⟩) 7 State.init).2 =
      (.error ⟨"Type Foo already had a mapped type set"⟩,
        (set_julia_type sample_julia (.record "Foo" ⟨false, false, false⟩) 7 State.init).2) ∧
    detail.JuliaUnpacker (.lref (.record "Foo" ⟨false, false, false⟩)) ⟨nullptr⟩ Memory.init =
      .error (.exception ⟨"C++ object was deleted"⟩) :=
  have h := error_messages sample_julia (.record "Foo" ⟨false, false, false⟩)
    (.lref (.record "Foo" ⟨false, false, false⟩)) 8 State.init
    (set_julia_type sample_julia (.record "Foo" ⟨false, false, false⟩) 7 State.init).2
    Memory.init (by decide) rfl (by decide) (by decide) (by decide) (by decide)
  ⟨by decide, rfl, by decide, by decide, by decide, by decide, h.1.1, h.2.1.1, h.2.2⟩

/-- Claim C17, counterexample. Unpacking a null handle as `Foo&` and as
`int32_t` throws the same message "C++ object was deleted", which does not
contain the name of `Foo`. -/
theorem deleted_error_without_type_name :
    detail.JuliaUnpacker (.lref (.record "Foo" ⟨false, false, false⟩)) ⟨nullptr⟩ Memory.init =
      .error (.exception ⟨"C++ object was deleted"⟩) ∧
    detail.JuliaUnpacker (.arith .int32_t) ⟨nullptr⟩ Memory.init =
      .error (.exception ⟨"C++ object was deleted"⟩) ∧
    sample_julia.typeid_name (.record "Foo" ⟨false, false, false⟩) = "Foo" ∧
    ¬ ("Foo".data <:+: "C++ object was deleted".data) :=
  ⟨rfl, rfl, rfl, by decide⟩

/-- Claim C20. For every `T` of the default registry slot whose slot is unset:
`set_julia_type<T>(nullptr)` returns without error and without a
`protect_from_gc` call; `julia_type<T>()` then still throws
"has no Julia wrapper"; a following `set_julia_type<T>(d)` with `d` non-null
returns, and `julia_type<T>()` then returns `d`. -/
theorem set_julia_type_null (jl : Julia) (T : CppType) (d : Address) (s : State)
    (hT : NeedsStorage T = false) (hs : (s.m_dt T).get_dt = nullptr) (hd : d ≠ nullptr) :
    (set_julia_type jl T nullptr s).1 = .ok () ∧
    (set_julia_type jl T nullptr s).2.gc_protected = s.gc_protected ∧
    julia_type jl T (set_julia_type jl T nullptr s).2 =
      (.error ⟨"Type " ++ jl.typeid_name T ++ " has no Julia wrapper"⟩,
        (set_julia_type jl T nullptr s).2) ∧
    (set_julia_type jl T d (set_julia_type jl T nullptr s).2).1 = .ok () ∧
    julia_type jl T (set_julia_type jl T d (set_julia_type jl T nullptr s).2).2 =
      (.ok d, (set_julia_type jl T d (set_julia_type jl T nullptr s).2).2) := by
  have hs1 : (s.m_dt T).m_dt = nullptr := hs
  have hnull : ((set_julia_type jl T nullptr s).2.m_dt T).get_dt = nullptr := by
    simp [set_julia_type, dynamic_type_mapping.set_julia_type, hs1, CachedDatatype.set_dt,
      CachedDatatype.get_dt]
  have hset : ∀ s0 : State, (s0.m_dt T).get_dt = nullptr →
      (set_julia_type jl T d s0).1 = .ok () ∧ ((set_julia_type jl T d s0).2.m_dt T).get_dt = d := by
    intro s0 h0
    have h01 : (s0.m_dt T).m_dt = nullptr := h0
    simp [set_julia_type, dynamic_type_mapping.set_julia_type, h01, CachedDatatype.set_dt,
      CachedDatatype.get_dt, hd]
  refine ⟨?_, ?_, ?_, (hset _ hnull).1, ?_⟩
  · simp [set_julia_type, dynamic_type_mapping.set_julia_type, hs]
  · simp [set_julia_type, dynamic_type_mapping.set_julia_type, hs, CachedDatatype.set_dt]
  · rw [julia_type_of_not_NeedsStorage jl _ T hT]
    simp [dynamic_type_mapping.primary_julia_type, hnull]
  · exact julia_type_registered jl T d _ hT hd (hset _ hnull).2

theorem set_julia_type_null_witness :
    NeedsStorage (.arith .int32_t) = false ∧
    (State.init.m_dt (.arith .int32_t)).get_dt = nullptr ∧ (7 : Address) ≠ nullptr ∧
    (set_julia_type sample_julia (.arith .int32_t) nullptr State.init).1 = .ok () ∧
    (set_julia_type sample_julia (.arith .int32_t) nullptr State.init).2.gc_protected = [] ∧
    (julia_type sample_julia (.arith .int32_t)
        (set_julia_type sample_julia (.arith .int32_t) 7
          (set_julia_type sample_julia (.arith .int32_t) nullptr State.init).2).2).1 = .ok 7 :=
  have h := set_julia_type_null sample_julia (.arith .int32_t) 7 State.init (by decide) rfl
    (by decide)
  ⟨by decide, rfl, by decide, h.1, h.2.1, congrArg Prod.fst h.2.2.2.2⟩

/-! ## Theorems: staged registration -/

theorem GetDynamicPtrT_type_error (jl : Julia) (TraitT : Trait) (e : runtime_error) :
    detail.GetDynamicPtrT.type jl TraitT (.error e) = .error e := by
  cases TraitT <;> rfl

theorem GetDynamicPtrT_type_ok (jl : Julia) (TraitT : Trait) (d : Address) :
    detail.GetDynamicPtrT.type jl TraitT (.ok d) =
      .ok (if TraitT = .CxxWrappedTrait then jl.super d else d) := by
  cases TraitT <;> rfl

theorem julia_type_of_dynamic_error (jl : Julia) (D : CppType) (e : runtime_error) (s : State)
    (hs : CacheConsistent jl s) (hN : NeedsStorage D = true)
    (h : dynamic_type_mapping.julia_type jl s D = .error e) :
    julia_type jl D s = (.error e, s) := by
  simp only [julia_type, CachedTypeMapping.julia_type, hN, if_true]
  split
  · rename_i c hc
    have := hs D c hc
    rw [h] at this
    cases this
  · simp [h]

theorem staged_derived (jl : Julia) (T D : CppType) (d w : Address) (s : State)
    (hcons : CacheConsistent jl s) (hT : NeedsStorage T = false) (hN : NeedsStorage D = true)
    (hs : (s.m_dt T).get_dt = nullptr) (hd : d ≠ nullptr)
    (hD : ∀ st : State, dynamic_type_mapping.julia_type jl st D =
      (detail.GetDynamicPtrT.type jl (mapping_trait T)
        (dynamic_type_mapping.julia_type jl st T)).map (jl.apply_type w)) :
    julia_type jl D s =
      (.error ⟨"Type " ++ jl.typeid_name T ++ " has no Julia wrapper"⟩, s) ∧
    (julia_type jl D (set_julia_type jl T d s).2).1 =
      .ok (jl.apply_type w (if mapping_trait T = .CxxWrappedTrait then jl.super d else d)) := by
  constructor
  · apply julia_type_of_dynamic_error jl D _ s hcons hN
    rw [hD s, dynamic_julia_type_of_not_NeedsStorage jl s T hT,
      dynamic_type_mapping.primary_julia_type, if_pos hs, GetDynamicPtrT_type_error]
    rfl
  · have hs1 : (s.m_dt T).m_dt = nullptr := hs
    have hset : ((set_julia_type jl T d s).2.m_dt T).get_dt = d := by
      simp [set_julia_type, dynamic_type_mapping.set_julia_type, hs1, CachedDatatype.set_dt,
        CachedDatatype.get_dt, hd]
    have hcons1 : CacheConsistent jl (set_julia_type jl T d s).2 :=
      CacheConsistent_run jl (.set_julia_type T d) s hcons
    apply julia_type_eq_dynamic jl D _ _ hcons1
    rw [hD, dynamic_julia_type_registered jl T d _ hT hset hd, GetDynamicPtrT_type_ok]
    rfl

/-- Claim C21, as amended. In every state reached from program start by
registry calls, for every `T` of the default registry slot that is neither a
reference type nor const-qualified and whose slot is unset:
`julia_type<const T*>()`, unless `T` is `void`, which has no reference types,
`julia_type<T&>()` and `julia_type<const T&>()`, and, unless `T` is `void`,
`jl_datatype_t` or `jl_value_t`, `julia_type<T*>()` throw
"Type T has no Julia wrapper" and leave the state as it was; after a
`set_julia_type<T>(d)` with `d` non-null, which returns, each of these calls
returns its wrapper applied to `d`, or to `d->super` when `T` is classified
`CxxWrappedTrait`. For such a `T` the types `T&`, `const T&`, `T*` and
`const T*` are `lref T`, `lref (const_ T)`, `ptr T` and `ptr (const_ T)`. -/
theorem staged_registration (jl : Julia) (calls : List RegistryCall) (T : CppType)
    (d : Address) (hT : NeedsStorage T = false) (hr : T.is_reference = false)
    (hc : T.is_const = false)
    (hs : ((run_calls jl calls State.init).m_dt T).get_dt = nullptr) (hd : d ≠ nullptr) :
    T.remove_reference = T ∧
    (set_julia_type jl T d (run_calls jl calls State.init)).1 = .ok () ∧
    (T ≠ .void →
      julia_type jl (.lref T) (run_calls jl calls State.init) =
          (.error ⟨"Type " ++ jl.typeid_name T ++ " has no Julia wrapper"⟩,
            run_calls jl calls State.init) ∧
        (julia_type jl (.lref T)
            (set_julia_type jl T d (run_calls jl calls State.init)).2).1 =
          .ok (jl.apply_type (jl.julia_type "CxxRef")
            (if mapping_trait T = .CxxWrappedTrait then jl.super d else d))) ∧
    (T ≠ .void →
      julia_type jl (.lref (.const_ T)) (run_calls jl calls State.init) =
          (.error ⟨"Type " ++ jl.typeid_name T ++ " has no Julia wrapper"⟩,
            run_calls jl calls State.init) ∧
        (julia_type jl (.lref (.const_ T))
            (set_julia_type jl T d (run_calls jl calls State.init)).2).1 =
          .ok (jl.apply_type (jl.julia_type "ConstCxxRef")
            (if mapping_trait T = .CxxWrappedTrait then jl.super d else d))) ∧
    (julia_type jl (.ptr (.const_ T)) (run_calls jl calls State.init) =
        (.error ⟨"Type " ++ jl.typeid_name T ++ " has no Julia wrapper"⟩,
          run_calls jl calls State.init) ∧
      (julia_type jl (.ptr (.const_ T))
          (set_julia_type jl T d (run_calls jl calls State.init)).2).1 =
        .ok (jl.apply_type (jl.julia_type "ConstCxxPtr")
          (if mapping_trait T = .CxxWrappedTrait then jl.super d else d))) ∧
    (T ≠ .void → T ≠ .jl_datatype_t → T ≠ .jl_value_t →
      julia_type jl (.ptr T) (run_calls jl calls State.init) =
          (.error ⟨"Type " ++ jl.typeid_name T ++ " has no Julia wrapper"⟩,
            run_calls jl calls State.init) ∧
        (julia_type jl (.ptr T)
            (set_julia_type jl T d (run_calls jl calls State.init)).2).1 =
          .ok (jl.apply_type (jl.julia_type "CxxPtr")
            (if mapping_trait T = .CxxWrappedTrait then jl.super d else d))) := by
  have hcons := CacheConsistent_run_calls jl calls State.init (CacheConsistent_init jl)
  have hs1 : ((run_calls jl calls State.init).m_dt T).m_dt = nullptr := hs
  refine ⟨?_, ?_, fun _ => ?_, fun _ => ?_, ?_, fun hv hdt hj => ?_⟩
  · cases T <;> first | rfl | simp [CppType.is_reference] at hr
  · simp [set_julia_type, dynamic_type_mapping.set_julia_type, hs1, CachedDatatype.get_dt]
  · exact staged_derived jl T (.lref T) d _ _ hcons hT rfl hs hd
      (fun st => dynamic_julia_type_lref jl st T hc)
  · exact staged_derived jl T (.lref (.const_ T)) d _ _ hcons hT rfl hs hd
      (fun st => dynamic_julia_type_lref_const jl st T)
  · exact staged_derived jl T (.ptr (.const_ T)) d _ _ hcons hT rfl hs hd
      (fun st => dynamic_julia_type_ptr_const jl st T)
  · exact staged_derived jl T (.ptr T) d _ _ hcons hT rfl hs hd
      (fun st => dynamic_julia_type_ptr jl st T hc hv hdt hj)

theorem staged_registration_witness :
    NeedsStorage (.arith .int32_t) = false ∧ (CppType.arith .int32_t).is_reference = false ∧
    (CppType.arith .int32_t).is_const = false ∧
    ((run_calls sample_julia [RegistryCall.julia_type (.ptr (.arith .int32_t))]
        State.init).m_dt (.arith .int32_t)).get_dt = nullptr ∧
    (7 : Address) ≠ nullptr ∧
    julia_type sample_julia (.ptr (.arith .int32_t))
        (run_calls sample_julia [RegistryCall.julia_type (.ptr (.arith .int32_t))]
          State.init) =
      (.error ⟨"Type i has no Julia wrapper"⟩,
        run_calls sample_julia [RegistryCall.julia_type (.ptr (.arith .int32_t))]
          State.init) ∧
    (julia_type sample_julia (.ptr (.arith .int32_t))
        (set_julia_type sample_julia (.arith .int32_t) 7
          (run_calls sample_julia [RegistryCall.julia_type (.ptr (.arith .int32_t))]
            State.init)).2).1 = .ok 4007 :=
  have h := staged_registration sample_julia
    [RegistryCall.julia_type (.ptr (.arith .int32_t))] (.arith .int32_t) 7
    (by decide) (by decide) (by decide) rfl (by decide)
  ⟨by decide, by decide, by decide, rfl, by decide,
    (h.2.2.2.2.2 (by decide) (by decide) (by decide)).1,
    (h.2.2.2.2.2 (by decide) (by decide) (by decide)).2⟩

/-- Claim C21, counterexample. With `void` unregistered, `julia_type<void*>()`
does not fail: it returns `jl_voidpointer_type` (11); and after
`set_julia_type<void>(6)` it still returns 11, not `apply_type(CxxPtr, 6)`
(4006). -/
theorem julia_type_void_pointer_unregistered :
    (State.init.m_dt .void).get_dt = nullptr ∧
    (julia_type sample_julia (.ptr .void) State.init).1 = .ok 11 ∧
    (julia_type sample_julia (.ptr .void)
        (set_julia_type sample_julia .void 6
          (julia_type sample_julia (.ptr .void) State.init).2).2).1 = .ok 11 ∧
    sample_julia.apply_type (sample_julia.julia_type "CxxPtr") 6 = 4006 :=
  ⟨rfl, rfl, rfl, by decide⟩

/-! ## Theorems: wrapped `std::vector` -/

theorem stl.WrapVector.append_loop_eq {T : Type} (arr : stl.ArrayRef T) (addedlen : Nat) :
    ∀ (fuel i : Nat) (v : stl.vector T), i ≤ addedlen → addedlen - i ≤ fuel →
      ∃ v1, stl.WrapVector.append_loop arr addedlen fuel i v = some v1 ∧
        v1.elems = v.elems ++ (List.range' i (addedlen - i)).map arr.index ∧
        (i = addedlen → v1 = v) := by
  intro fuel
  induction fuel with
  | zero =>
    intro i v hi hf
    have hia : i = addedlen := by omega
    refine ⟨v, ?_, ?_, fun _ => rfl⟩
    · simp [stl.WrapVector.append_loop, hia]
    · simp [hia]
  | succ fuel ih =>
    intro i v hi hf
    by_cases hia : i = addedlen
    · refine ⟨v, ?_, ?_, fun _ => rfl⟩
      · simp [stl.WrapVector.append_loop, hia]
      · simp [hia]
    · obtain ⟨v1, h1, h2, _⟩ := ih (i + 1) (v.push_back (arr.index i)) (by omega) (by omega)
      refine ⟨v1, ?_, ?_, fun h => absurd h hia⟩
      · simp [stl.WrapVector.append_loop, hia, h1]
      · have hn : addedlen - i = (addedlen - (i + 1)) + 1 := by omega
        rw [h2, hn, List.range'_succ]
        simp [stl.vector.push_back]

/-- Claim C22. For every vector `v` and every array `arr`, the `append`
method returns (its loop ends within `arr.size()` iterations), and afterwards
the vector holds the old elements of `v`, each at its old index, followed by
`arr[0]`, ..., `arr[size - 1]` in this order; its size is the size of `v` plus
the size of `arr`; appending an empty array leaves the elements of `v`
unchanged, and the whole vector when its capacity was not below its size. -/
theorem append_appends (T : Type) (fuel : Nat) (v : stl.vector T) (arr : stl.ArrayRef T)
    (hfuel : arr.size ≤ fuel) :
    ∃ v1, stl.WrapVector.append fuel v arr = some v1 ∧
      v1.elems = v.elems ++ arr.elems ∧
      v1.size = v.size + arr.size ∧
      (∀ i, i < v.size → v1.elems[i]? = v.elems[i]?) ∧
      (arr.size = 0 → v1.elems = v.elems ∧ (v.size ≤ v.capacity → v1 = v)) := by
  obtain ⟨v1, h1, h2, h3⟩ :=
    stl.WrapVector.append_loop_eq arr arr.size fuel 0 (v.reserve (v.size + arr.size))
      (Nat.zero_le _) (by omega)
  have he : v1.elems = v.elems ++ arr.elems := by
    rw [h2]
    simp [stl.vector.reserve, stl.ArrayRef.elems, List.range_eq_range']
  refine ⟨v1, h1, he, ?_, ?_, ?_⟩
  · simp [stl.vector.size, he, stl.ArrayRef.elems]
  · intro i hi
    rw [he, List.getElem?_append_left hi]
  · intro h0
    constructor
    · simp [he, stl.ArrayRef.elems, h0]
    · intro hcap
      rw [h3 h0.symm]
      simp only [stl.vector.reserve, h0, Nat.add_zero]
      have : max v.capacity v.size = v.capacity := Nat.max_eq_left hcap
      rw [this]

theorem append_appends_witness :
    (2 : Nat) ≤ 2 ∧
    ∃ v1, stl.WrapVector.append 2 ⟨[10, 20], 2⟩ ⟨2, fun i => 30 + i⟩ = some v1 ∧
      v1.elems = [10, 20, 30, 31] ∧ v1.size = 4 :=
  ⟨by decide,
    match append_appends Nat 2 ⟨[10, 20], 2⟩ ⟨2, fun i => 30 + i⟩ (by decide) with
    | ⟨v1, h1, h2, h3, _, _⟩ => ⟨v1, h1, h2, h3⟩⟩

end jlcxx
